import Mathlib

/-!
Verification development for the service-ninja MCP server core: the tool
registry and dispatch engine together with the referential CRUD store it
operates on.

The TypeScript source is embedded shallowly:

* Database rows become Lean structures; the SQLite store becomes a `DB`
  record of row lists kept in insertion (rowid) order, matching the
  behaviour of unordered `SELECT *` scans on a fresh single-writer
  SQLite file.  `INTEGER PRIMARY KEY` assignment is modelled as
  `max existing id + 1`, the SQLite algorithm for automatic rowids.
* Every `async` repository or tool function becomes a pure function
  returning `Except String _`; `Except.error m` models a promise that
  rejects with a JavaScript `Error` whose message is `m`.  All guard
  `throw` statements in the source run before the SQL write, so an
  `Except.error` outcome always leaves the store untouched, which the
  embedding reflects by not producing a new `DB` on the error path.
* JavaScript truthiness tests on optional arguments (`if (!params.x)`,
  `x ? a : b`) are modelled by `truthyS` / `truthyN` / the `Option`
  patterns below; `x !== undefined` is `Option.isSome`.
* The outbound HTTP client (axios) is an external collaborator and is
  modelled as an oracle `String → HttpOutcome`: `HttpOutcome.response`
  stands for a request the client resolves (with axios defaults, a 2xx
  reply), `HttpOutcome.failure` for a rejection (network error, timeout,
  or a non-2xx status, which axios also surfaces as a rejection).
  `JSON.parse` of a stored header string is likewise an oracle
  `String → Option String` giving `some errMsg` exactly when parsing
  throws, and `Date.now()` is an oracle `Nat`.
-/

namespace ServiceNinja

/-- JavaScript truthiness of an optional string argument: `undefined` and
the empty string are falsy. -/
def truthyS : Option String → Bool
  | some s => s != ""
  | none => false

/-- JavaScript truthiness of an optional numeric argument: `undefined` and
`0` are falsy. -/
def truthyN : Option Nat → Bool
  | some n => n != 0
  | none => false

/-- The JavaScript idiom `x || null` on an optional string: a missing or
empty (falsy) string collapses to SQL NULL, everything else is kept. -/
def jsOrNull (o : Option String) : Option String :=
  if truthyS o then o else none

/-- SQLite automatic `INTEGER PRIMARY KEY` assignment: one more than the
largest rowid in the table (1 on an empty table). -/
def freshId (ids : List Nat) : Nat := ids.foldr max 0 + 1

/-- The `toLowerCase()` calls of the duplicate scans, modelled as ASCII
lowering characterwise (the names at issue are plain strings). -/
def jsToLower (s : String) : String := String.mk (s.data.map Char.toLower)

/-- Escape of a string for `JSON.stringify` output (backslash and quote;
control characters do not occur in the texts this model builds). -/
def jsonEscapeChar (c : Char) : String :=
  if c = '\\' then "\\\\" else if c = '"' then "\\\"" else String.singleton c

def jsonEscape (s : String) : String :=
  String.join (s.toList.map jsonEscapeChar)

def jsonStr (s : String) : String := "\"" ++ jsonEscape s ++ "\""

/-- Literal opening brace of rendered JSON text. -/
def lb : String := "\x7b"

/-- Literal closing brace of rendered JSON text. -/
def rb : String := "\x7d"

def jsonOptStr : Option String → String
  | some s => jsonStr s
  | none => "null"

/-- Row of the service-ninja-project table (`name` is declared UNIQUE). -/
structure ServiceNinjaProject where
  id : Nat
  name : String
  description : String
deriving Repr, DecidableEq

/-- Row of the service-ninja-env table. -/
structure ServiceNinjaEnv where
  id : Nat
  name : String
  description : Option String
  projectId : Nat
deriving Repr, DecidableEq

/-- Row of the service-ninja-resource table. -/
structure ServiceNinjaResource where
  id : Nat
  name : String
  description : String
  healthCheckUrl : Option String
  aliveCheckUrl : Option String
  headers : Option String
  isIhService : Bool
  type : String
  projectId : Nat
  envId : Nat
deriving Repr, DecidableEq

/-- Row of the service-ninja-contact table. -/
structure ServiceNinjaContact where
  id : Nat
  firstName : String
  lastName : String
  email : String
  phone : Option String
deriving Repr, DecidableEq

/-- Row of the service-ninja-resource-contact association table. -/
structure ServiceNinjaResourceContact where
  resourceId : Nat
  contactId : Nat
  role : String
deriving Repr, DecidableEq

/-- The SQLite store: five row collections in insertion order. -/
structure DB where
  projects : List ServiceNinjaProject := []
  envs : List ServiceNinjaEnv := []
  resources : List ServiceNinjaResource := []
  contacts : List ServiceNinjaContact := []
  resourceContacts : List ServiceNinjaResourceContact := []
deriving Repr, DecidableEq

/-- One entry of a tool-call response content array. -/
structure McpContent where
  type : String
  text : String
  data : Option String := none
deriving Repr, DecidableEq

/-- The uniform tool-call result envelope. -/
structure McpToolCallResult where
  isError : Bool
  content : List McpContent
deriving Repr, DecidableEq

/-- A single-text envelope, the shape every handler in the source builds. -/
def textResult (isErr : Bool) (t : String) : McpToolCallResult :=
  { isError := isErr, content := [{ type := "text", text := t }] }

/-- A single-text envelope that also carries a data field, used by the
read tools. -/
def textDataResult (isErr : Bool) (t d : String) : McpToolCallResult :=
  { isError := isErr, content := [{ type := "text", text := t, data := some d }] }

/-! ## Repository layer: projects (src/unnamed/part_001) -/

/-- getServiceNinjaProjects: SELECT * FROM the project table. -/
def getServiceNinjaProjects (db : DB) : List ServiceNinjaProject :=
  db.projects

/-- getServiceNinjaProject: SELECT by name or id.  The column is chosen by
truthiness of `name` but the bound key is `name ?? id` (nullish), so a
supplied empty-string name makes the query compare the numeric id column
against an empty string and match nothing. -/
def getServiceNinjaProject (db : DB) (name : Option String) (id : Option Nat) :
    Except String (Option ServiceNinjaProject) :=
  if !truthyS name && !truthyN id then
    .error "Failed to get project: Error: Either name or id must be provided"
  else if truthyS name then
    .ok (db.projects.find? (fun p => p.name == name.getD ""))
  else if name.isSome then
    .ok none
  else
    .ok (db.projects.find? (fun p => p.id == id.getD 0))

/-- Placeholder for the storage engine text of a UNIQUE violation on the
project name column; no claim depends on its exact wording. -/
def uniqueNameViolation : String :=
  "SQLiteError: UNIQUE constraint failed: service-ninja-project.name"

/-- createServiceNinjaProject: guard on falsy name/description, then
INSERT.  The name column is declared UNIQUE, so inserting an exact
duplicate name raises a constraint failure that the catch wraps. -/
def createServiceNinjaProject (db : DB) (name description : Option String) :
    Except String (DB × Bool) :=
  if !truthyS name || !truthyS description then
    .error "Failed to create project: Error: Project name and description are required"
  else if db.projects.any (fun p => p.name == name.getD "") then
    .error ("Failed to create project: " ++ uniqueNameViolation)
  else
    let row : ServiceNinjaProject :=
      { id := freshId (db.projects.map (fun p => p.id)),
        name := name.getD "", description := description.getD "" }
    .ok ({ db with projects := db.projects ++ [row] }, true)

/-- updateServiceNinjaProject: guard on falsy id, collect truthy fields,
reject an empty patch, then UPDATE ... WHERE id = ?.  Renaming an
existing row to the exact name of a different row violates the UNIQUE
constraint on the name column. -/
def updateServiceNinjaProject (db : DB) (id : Option Nat)
    (name description : Option String) : Except String (DB × Bool) :=
  if !truthyN id then
    .error "Failed to update project: Error: Project ID is required for update"
  else
    let sName := truthyS name
    let sDesc := truthyS description
    if !sName && !sDesc then
      .error "Failed to update project: Error: No fields to update"
    else
      let i := id.getD 0
      let hit := db.projects.any (fun p => p.id == i)
      if sName && hit &&
          db.projects.any (fun p => p.id != i && p.name == name.getD "") then
        .error ("Failed to update project: " ++ uniqueNameViolation)
      else
        .ok ({ db with projects := db.projects.map (fun p =>
                if p.id == i then
                  { p with
                    name := if sName then name.getD p.name else p.name,
                    description := if sDesc then description.getD p.description
                      else p.description }
                else p) },
             hit)

/-- deleteServiceNinjaProject: guard on falsy id, then DELETE WHERE id = ?. -/
def deleteServiceNinjaProject (db : DB) (id : Option Nat) :
    Except String (DB × Bool) :=
  if !truthyN id then
    .error "Failed to delete project: Error: Project ID is required for deletion"
  else
    let i := id.getD 0
    .ok ({ db with projects := db.projects.filter (fun p => p.id != i) },
         db.projects.any (fun p => p.id == i))

/-! ## Repository layer: environments and contacts
(src/mcp-server/src/repo/service-ninja-repo/environment.repo.ts) -/

/-- getServiceNinjaEnvs: SELECT, optionally filtered by a truthy projectId. -/
def getServiceNinjaEnvs (db : DB) (projectId : Option Nat) : List ServiceNinjaEnv :=
  if truthyN projectId then
    db.envs.filter (fun e => e.projectId == projectId.getD 0)
  else db.envs

/-- getServiceNinjaEnv: SELECT by name or id with an optional projectId
filter; same name-or-id column selection quirk as the project getter. -/
def getServiceNinjaEnv (db : DB) (name : Option String) (id : Option Nat)
    (projectId : Option Nat) : Except String (Option ServiceNinjaEnv) :=
  if !truthyS name && !truthyN id then
    .error "Failed to get environment: Error: Either name or id must be provided"
  else
    let pidOk := fun (e : ServiceNinjaEnv) =>
      !truthyN projectId || e.projectId == projectId.getD 0
    if truthyS name then
      .ok (db.envs.find? (fun e => e.name == name.getD "" && pidOk e))
    else if name.isSome then
      .ok none
    else
      .ok (db.envs.find? (fun e => e.id == id.getD 0 && pidOk e))

/-- createServiceNinjaEnv: guard on falsy name/projectId, then INSERT with
`description || empty string` coalescing. -/
def createServiceNinjaEnv (db : DB) (name description : Option String)
    (projectId : Option Nat) : Except String (DB × Bool) :=
  if !truthyS name || !truthyN projectId then
    .error "Failed to create environment: Error: Environment name and projectId are required"
  else
    let row : ServiceNinjaEnv :=
      { id := freshId (db.envs.map (fun e => e.id)),
        name := name.getD "", description := some (description.getD ""),
        projectId := projectId.getD 0 }
    .ok ({ db with envs := db.envs ++ [row] }, true)

/-- updateServiceNinjaEnv: name and projectId are truthiness-gated,
description is gated by an explicit undefined check. -/
def updateServiceNinjaEnv (db : DB) (id : Option Nat) (name : Option String)
    (description : Option String) (projectId : Option Nat) :
    Except String (DB × Bool) :=
  if !truthyN id then
    .error "Failed to update environment: Error: Environment ID is required for update"
  else
    let sName := truthyS name
    let sDesc := description.isSome
    let sPid := truthyN projectId
    if !sName && !sDesc && !sPid then
      .error "Failed to update environment: Error: No fields to update"
    else
      let i := id.getD 0
      .ok ({ db with envs := db.envs.map (fun e =>
              if e.id == i then
                { e with
                  name := if sName then name.getD e.name else e.name,
                  description := if sDesc then description else e.description,
                  projectId := if sPid then projectId.getD e.projectId
                    else e.projectId }
              else e) },
           db.envs.any (fun e => e.id == i))

/-- deleteServiceNinjaEnv: guard on falsy id, then DELETE WHERE id = ?. -/
def deleteServiceNinjaEnv (db : DB) (id : Option Nat) :
    Except String (DB × Bool) :=
  if !truthyN id then
    .error "Failed to delete environment: Error: Environment ID is required for deletion"
  else
    let i := id.getD 0
    .ok ({ db with envs := db.envs.filter (fun e => e.id != i) },
         db.envs.any (fun e => e.id == i))

/-- Split a character list at every at-sign. -/
def splitAtSign : List Char → List (List Char)
  | [] => [[]]
  | c :: cs =>
      let r := splitAtSign cs
      if c = '@' then [] :: r
      else
        match r with
        | h :: t => (c :: h) :: t
        | [] => [[c]]

/-- The email shape check used at contact create and update, a faithful
translation of the anchored pattern `[^\s@]+ at-sign [^\s@]+ dot [^\s@]+`:
exactly one at-sign separating a nonempty whitespace-free local part from
a whitespace-free domain that contains a dot strictly inside it. -/
def emailRegexTest (s : String) : Bool :=
  match splitAtSign s.data with
  | [localPart, domain] =>
      !localPart.isEmpty
        && localPart.all (fun c => !c.isWhitespace)
        && domain.all (fun c => !c.isWhitespace)
        && domain.length ≥ 3
        && (domain.drop 1).dropLast.contains '.'
  | _ => false

/-- getServiceNinjaContacts: SELECT * FROM the contact table. -/
def getServiceNinjaContacts (db : DB) : List ServiceNinjaContact :=
  db.contacts

/-- getServiceNinjaContact: SELECT by email or id; the column is chosen by
truthiness of `email` and the key is `email ? email : id`. -/
def getServiceNinjaContact (db : DB) (email : Option String) (id : Option Nat) :
    Except String (Option ServiceNinjaContact) :=
  if !truthyS email && !truthyN id then
    .error "Failed to get contact: Error: Either email or id must be provided"
  else if truthyS email then
    .ok (db.contacts.find? (fun c => c.email == email.getD ""))
  else
    .ok (db.contacts.find? (fun c => c.id == id.getD 0))

/-- createServiceNinjaContact: guard on falsy names/email, validate the
email shape, then INSERT with `phone || null` coalescing. -/
def createServiceNinjaContact (db : DB) (firstName lastName email phone : Option String) :
    Except String (DB × Bool) :=
  if !truthyS firstName || !truthyS lastName || !truthyS email then
    .error "Failed to create contact: Error: First name, last name, and email are required"
  else if !emailRegexTest (email.getD "") then
    .error "Failed to create contact: Error: Invalid email format"
  else
    let row : ServiceNinjaContact :=
      { id := freshId (db.contacts.map (fun c => c.id)),
        firstName := firstName.getD "", lastName := lastName.getD "",
        email := email.getD "", phone := jsOrNull phone }
    .ok ({ db with contacts := db.contacts ++ [row] }, true)

/-- Arguments of a contact update, mirroring
`Partial ServiceNinjaContact and id`. -/
structure ContactArgs where
  id : Option Nat := none
  firstName : Option String := none
  lastName : Option String := none
  email : Option String := none
  phone : Option String := none
deriving Repr, DecidableEq

/-- updateServiceNinjaContact: firstName, lastName and email are
truthiness-gated (a truthy email is re-validated, throwing before the
empty-patch check), phone is gated by an explicit undefined check. -/
def updateServiceNinjaContact (db : DB) (a : ContactArgs) :
    Except String (DB × Bool) :=
  if !truthyN a.id then
    .error "Failed to update contact: Error: Contact ID is required for update"
  else if truthyS a.email && !emailRegexTest (a.email.getD "") then
    .error "Failed to update contact: Error: Invalid email format"
  else
    let sFirst := truthyS a.firstName
    let sLast := truthyS a.lastName
    let sEmail := truthyS a.email
    let sPhone := a.phone.isSome
    if !sFirst && !sLast && !sEmail && !sPhone then
      .error "Failed to update contact: Error: No fields to update"
    else
      let i := a.id.getD 0
      .ok ({ db with contacts := db.contacts.map (fun c =>
              if c.id == i then
                { c with
                  firstName := if sFirst then a.firstName.getD c.firstName
                    else c.firstName,
                  lastName := if sLast then a.lastName.getD c.lastName
                    else c.lastName,
                  email := if sEmail then a.email.getD c.email else c.email,
                  phone := if sPhone then a.phone else c.phone }
              else c) },
           db.contacts.any (fun c => c.id == i))

/-- deleteServiceNinjaContact: guard on falsy id, then DELETE WHERE id = ?. -/
def deleteServiceNinjaContact (db : DB) (id : Option Nat) :
    Except String (DB × Bool) :=
  if !truthyN id then
    .error "Failed to delete contact: Error: Contact ID is required for deletion"
  else
    let i := id.getD 0
    .ok ({ db with contacts := db.contacts.filter (fun c => c.id != i) },
         db.contacts.any (fun c => c.id == i))

/-! ## Repository layer: resources (src/unnamed/part_002) -/

/-- getServiceNinjaResources: SELECT with the three truthiness-driven
WHERE variants (both filters, projectId only, envId only, none). -/
def getServiceNinjaResources (db : DB) (projectId envId : Option Nat) :
    List ServiceNinjaResource :=
  if truthyN projectId && truthyN envId then
    db.resources.filter (fun r =>
      r.projectId == projectId.getD 0 && r.envId == envId.getD 0)
  else if truthyN projectId then
    db.resources.filter (fun r => r.projectId == projectId.getD 0)
  else if truthyN envId then
    db.resources.filter (fun r => r.envId == envId.getD 0)
  else
    db.resources

/-- getServiceNinjaResource: SELECT by name or id plus optional truthy
projectId and envId filters; same name-or-id column selection quirk. -/
def getServiceNinjaResource (db : DB) (name : Option String) (id : Option Nat)
    (projectId envId : Option Nat) : Except String (Option ServiceNinjaResource) :=
  if !truthyS name && !truthyN id then
    .error "Failed to get resource: Error: Either name or id must be provided"
  else
    let scopeOk := fun (r : ServiceNinjaResource) =>
      (!truthyN projectId || r.projectId == projectId.getD 0)
        && (!truthyN envId || r.envId == envId.getD 0)
    if truthyS name then
      .ok (db.resources.find? (fun r => r.name == name.getD "" && scopeOk r))
    else if name.isSome then
      .ok none
    else
      .ok (db.resources.find? (fun r => r.id == id.getD 0 && scopeOk r))

/-- Arguments of a resource create or update, mirroring
`Partial ServiceNinjaResource`. -/
structure ResourceArgs where
  id : Option Nat := none
  name : Option String := none
  description : Option String := none
  type : Option String := none
  projectId : Option Nat := none
  envId : Option Nat := none
  healthCheckUrl : Option String := none
  aliveCheckUrl : Option String := none
  headers : Option String := none
  isIhService : Option Bool := none
deriving Repr, DecidableEq

/-- createServiceNinjaResource: guard on the five required truthy fields,
then INSERT with `x || null` coalescing on the optional columns and
`isIhService || false`. -/
def createServiceNinjaResource (db : DB) (a : ResourceArgs) :
    Except String (DB × Bool) :=
  if !truthyS a.name || !truthyS a.description || !truthyS a.type
      || !truthyN a.projectId || !truthyN a.envId then
    .error "Failed to create resource: Error: Name, description, type, projectId, and envId are required"
  else
    let row : ServiceNinjaResource :=
      { id := freshId (db.resources.map (fun r => r.id)),
        name := a.name.getD "", description := a.description.getD "",
        type := a.type.getD "",
        projectId := a.projectId.getD 0, envId := a.envId.getD 0,
        healthCheckUrl := jsOrNull a.healthCheckUrl,
        aliveCheckUrl := jsOrNull a.aliveCheckUrl,
        headers := jsOrNull a.headers,
        isIhService := a.isIhService.getD false }
    .ok ({ db with resources := db.resources ++ [row] }, true)

/-- updateServiceNinjaResource: name, type, projectId, envId are
truthiness-gated; description, healthCheckUrl, aliveCheckUrl, headers and
isIhService are gated by explicit undefined checks; an empty effective
patch throws before the UPDATE statement runs. -/
def updateServiceNinjaResource (db : DB) (a : ResourceArgs) :
    Except String (DB × Bool) :=
  if !truthyN a.id then
    .error "Failed to update resource: Error: Resource ID is required for update"
  else
    let sName := truthyS a.name
    let sDesc := a.description.isSome
    let sType := truthyS a.type
    let sPid := truthyN a.projectId
    let sEid := truthyN a.envId
    let sHealth := a.healthCheckUrl.isSome
    let sAlive := a.aliveCheckUrl.isSome
    let sHeaders := a.headers.isSome
    let sIh := a.isIhService.isSome
    if !sName && !sDesc && !sType && !sPid && !sEid
        && !sHealth && !sAlive && !sHeaders && !sIh then
      .error "Failed to update resource: Error: No fields to update"
    else
      let i := a.id.getD 0
      .ok ({ db with resources := db.resources.map (fun r =>
              if r.id == i then
                { r with
                  name := if sName then a.name.getD r.name else r.name,
                  description := if sDesc then a.description.getD r.description
                    else r.description,
                  type := if sType then a.type.getD r.type else r.type,
                  projectId := if sPid then a.projectId.getD r.projectId
                    else r.projectId,
                  envId := if sEid then a.envId.getD r.envId else r.envId,
                  healthCheckUrl := if sHealth then a.healthCheckUrl
                    else r.healthCheckUrl,
                  aliveCheckUrl := if sAlive then a.aliveCheckUrl
                    else r.aliveCheckUrl,
                  headers := if sHeaders then a.headers else r.headers,
                  isIhService := if sIh then a.isIhService.getD r.isIhService
                    else r.isIhService }
              else r) },
           db.resources.any (fun r => r.id == i))

/-- deleteServiceNinjaResource: guard on falsy id, then DELETE WHERE id = ?. -/
def deleteServiceNinjaResource (db : DB) (id : Option Nat) :
    Except String (DB × Bool) :=
  if !truthyN id then
    .error "Failed to delete resource: Error: Resource ID is required for deletion"
  else
    let i := id.getD 0
    .ok ({ db with resources := db.resources.filter (fun r => r.id != i) },
         db.resources.any (fun r => r.id == i))

/-! ## Repository layer: resource-contact associations
(src/unnamed/part_000, third document) -/

/-- getResourceContact: guard on falsy ids, then SELECT the pair. -/
def getResourceContact (db : DB) (resourceId contactId : Option Nat) :
    Except String (Option ServiceNinjaResourceContact) :=
  if !truthyN resourceId || !truthyN contactId then
    .error "Failed to get resource contact: Error: Both resource ID and contact ID are required"
  else
    .ok (db.resourceContacts.find? (fun rc =>
      rc.resourceId == resourceId.getD 0 && rc.contactId == contactId.getD 0))

/-- createResourceContact: guard on falsy ids/role, re-check that the pair
is absent (throwing if it exists), then INSERT. -/
def createResourceContact (db : DB) (resourceId contactId : Option Nat)
    (role : Option String) : Except String (DB × Bool) :=
  if !truthyN resourceId || !truthyN contactId || !truthyS role then
    .error "Failed to create resource contact: Error: Resource ID, contact ID, and role are required"
  else
    match getResourceContact db resourceId contactId with
    | .error e => .error ("Failed to create resource contact: " ++ e)
    | .ok (some _) =>
        .error "Failed to create resource contact: Error: Resource-contact association already exists"
    | .ok none =>
        let row : ServiceNinjaResourceContact :=
          { resourceId := resourceId.getD 0, contactId := contactId.getD 0,
            role := role.getD "" }
        .ok ({ db with resourceContacts := db.resourceContacts ++ [row] }, true)

/-- updateResourceContact: guard on falsy ids/role, then UPDATE the role
of the matching pair. -/
def updateResourceContact (db : DB) (resourceId contactId : Option Nat)
    (role : Option String) : Except String (DB × Bool) :=
  if !truthyN resourceId || !truthyN contactId || !truthyS role then
    .error "Failed to update resource contact: Error: Resource ID, contact ID, and role are required"
  else
    let r := resourceId.getD 0
    let c := contactId.getD 0
    .ok ({ db with resourceContacts := db.resourceContacts.map (fun rc =>
            if rc.resourceId == r && rc.contactId == c then
              { rc with role := role.getD "" }
            else rc) },
         db.resourceContacts.any (fun rc =>
           rc.resourceId == r && rc.contactId == c))

/-- deleteResourceContact: guard on falsy ids, then DELETE the pair. -/
def deleteResourceContact (db : DB) (resourceId contactId : Option Nat) :
    Except String (DB × Bool) :=
  if !truthyN resourceId || !truthyN contactId then
    .error "Failed to delete resource contact: Error: Both resource ID and contact ID are required"
  else
    let r := resourceId.getD 0
    let c := contactId.getD 0
    .ok ({ db with resourceContacts := db.resourceContacts.filter (fun rc =>
            !(rc.resourceId == r && rc.contactId == c)) },
         db.resourceContacts.any (fun rc =>
           rc.resourceId == r && rc.contactId == c))

/-! ## JSON rendering of rows

The read and list tools return `JSON.stringify` texts of the rows they
fetched.  SQLite stores the boolean column as 0/1, which is what a SELECT
hands back to `JSON.stringify`. -/

def renderProject (p : ServiceNinjaProject) : String :=
  lb ++ "\"id\":" ++ toString p.id ++ ",\"name\":" ++ jsonStr p.name
    ++ ",\"description\":" ++ jsonStr p.description ++ rb

def renderEnv (e : ServiceNinjaEnv) : String :=
  lb ++ "\"id\":" ++ toString e.id ++ ",\"name\":" ++ jsonStr e.name
    ++ ",\"description\":" ++ jsonOptStr e.description
    ++ ",\"projectId\":" ++ toString e.projectId ++ rb

def renderResource (r : ServiceNinjaResource) : String :=
  lb ++ "\"id\":" ++ toString r.id ++ ",\"name\":" ++ jsonStr r.name
    ++ ",\"description\":" ++ jsonStr r.description
    ++ ",\"healthCheckUrl\":" ++ jsonOptStr r.healthCheckUrl
    ++ ",\"aliveCheckUrl\":" ++ jsonOptStr r.aliveCheckUrl
    ++ ",\"headers\":" ++ jsonOptStr r.headers
    ++ ",\"isIhService\":" ++ (if r.isIhService then "1" else "0")
    ++ ",\"type\":" ++ jsonStr r.type
    ++ ",\"projectId\":" ++ toString r.projectId
    ++ ",\"envId\":" ++ toString r.envId ++ rb

def renderArray (xs : List String) : String :=
  "[" ++ String.intercalate "," xs ++ "]"

/-- JS template interpolation of a possibly-undefined string. -/
def jsShowS : Option String → String
  | some s => s
  | none => "undefined"

/-- JS template interpolation of a possibly-undefined number. -/
def jsShowN : Option Nat → String
  | some n => toString n
  | none => "undefined"

/-! ## Outbound HTTP oracle -/

/-- Outcome of one outbound axios GET, by URL.  `response` is a request
the client resolves (with axios defaults, a 2xx reply; `dataText` denotes
the `JSON.stringify` rendering of the parsed body); `failure` is a
rejection: network error, timeout, or a non-2xx status, which axios also
surfaces as a rejection. -/
inductive HttpOutcome where
  | response (statusCode : Nat) (dataText : String)
  | failure (message : String)
deriving Repr, DecidableEq

/-! ## Tool layer: project tools
(src/mcp-server/src/tools/service-ninja/service-ninja-project.tool.ts) -/

/-- createServiceNinjaProjectTool: fetch all projects, reject a
case-insensitive name duplicate with an error envelope, otherwise insert.
A missing name makes `name.toLowerCase()` throw a TypeError before the
duplicate scan, so the promise rejects. -/
def createServiceNinjaProjectTool (db : DB) (name description : Option String) :
    Except String (DB × McpToolCallResult) :=
  match name with
  | none =>
      .error "TypeError: Cannot read properties of undefined (reading 'toLowerCase')"
  | some n =>
      if (getServiceNinjaProjects db).any (fun p => jsToLower p.name == jsToLower n) then
        .ok (db, textResult true ("Project with name \"" ++ n ++ "\" already exists."))
      else
        match createServiceNinjaProject db name description with
        | .error e => .error e
        | .ok (db2, ok) =>
            .ok (db2, textResult false
              ("Project \"" ++ n ++ "\" created successfully with ID "
                ++ toString ok ++ "."))

/-- readServiceNinjaProjectTool: get by name or id; a repo throw (neither
key supplied) rejects, a miss is a not-found error envelope. -/
def readServiceNinjaProjectTool (db : DB) (name : Option String) (id : Option Nat) :
    Except String McpToolCallResult :=
  match getServiceNinjaProject db name id with
  | .error e => .error e
  | .ok none => .ok (textResult true "Project not found.")
  | .ok (some p) =>
      .ok (textDataResult false "Project details retrieved successfully."
        (lb ++ "\"project\":" ++ renderProject p ++ rb))

/-- updateServiceNinjaProjectTool: awaits the repo update and returns a
fixed success envelope; a repo throw is not handled (the source carries a
TODO to that effect), so the promise rejects. -/
def updateServiceNinjaProjectTool (db : DB) (id : Option Nat)
    (name description : Option String) : Except String (DB × McpToolCallResult) :=
  match updateServiceNinjaProject db id name description with
  | .error e => .error e
  | .ok (db2, _) => .ok (db2, textResult false "Project updated successfully.")

/-- deleteServiceNinjaProjectTool: awaits the repo delete and returns a
fixed success envelope whether or not a row existed; a repo throw (falsy
id) rejects. -/
def deleteServiceNinjaProjectTool (db : DB) (id : Option Nat) :
    Except String (DB × McpToolCallResult) :=
  match deleteServiceNinjaProject db id with
  | .error e => .error e
  | .ok (db2, _) => .ok (db2, textResult false "Project deleted successfully.")

/-- getProjectToolListTool: list all projects as a JSON text envelope. -/
def getProjectToolListTool (db : DB) : McpToolCallResult :=
  textResult false
    (lb ++ "\"projects\":"
      ++ renderArray ((getServiceNinjaProjects db).map renderProject) ++ rb)

/-! ## Tool layer: environment tools
(src/mcp-server/src/tools/service-ninja/service-ninja-environment.tool.ts) -/

/-- createServiceNinjaEnvironmentTool: fetch the project-scoped list,
reject a case-insensitive duplicate (the comparison uses optional
chaining, so a missing name just never matches), otherwise insert. -/
def createServiceNinjaEnvironmentTool (db : DB) (name description : Option String)
    (projectId : Option Nat) : Except String (DB × McpToolCallResult) :=
  let envs := getServiceNinjaEnvs db projectId
  let dup := match name with
    | some n => envs.any (fun e => jsToLower e.name == jsToLower n)
    | none => false
  if dup then
    .ok (db, textResult true
      ("Environment with name \"" ++ jsShowS name ++ "\" already exists in this project."))
  else
    match createServiceNinjaEnv db name description projectId with
    | .error e => .error e
    | .ok (db2, ok) =>
        .ok (db2, textResult false
          ("Environment \"" ++ jsShowS name ++ "\" created successfully with ID "
            ++ toString ok ++ "."))

/-- readServiceNinjaEnvironmentTool: get by name or id with an optional
project filter. -/
def readServiceNinjaEnvironmentTool (db : DB) (name : Option String)
    (id projectId : Option Nat) : Except String McpToolCallResult :=
  match getServiceNinjaEnv db name id projectId with
  | .error e => .error e
  | .ok none => .ok (textResult true "Environment not found.")
  | .ok (some e) =>
      .ok (textResult false (lb ++ "\"environment\":" ++ renderEnv e ++ rb))

/-- updateServiceNinjaEnvironmentTool: fixed success envelope; a repo
throw is not handled (source TODO), so the promise rejects. -/
def updateServiceNinjaEnvironmentTool (db : DB) (id : Option Nat)
    (name description : Option String) (projectId : Option Nat) :
    Except String (DB × McpToolCallResult) :=
  match updateServiceNinjaEnv db id name description projectId with
  | .error e => .error e
  | .ok (db2, _) => .ok (db2, textResult false "Environment updated successfully.")

/-- deleteServiceNinjaEnvironmentTool: fixed success envelope whether or
not a row existed; a repo throw (falsy id) rejects. -/
def deleteServiceNinjaEnvironmentTool (db : DB) (id : Option Nat) :
    Except String (DB × McpToolCallResult) :=
  match deleteServiceNinjaEnv db id with
  | .error e => .error e
  | .ok (db2, _) => .ok (db2, textResult false "Environment deleted successfully.")

/-- getEnvironmentToolListTool: list environments, optionally scoped. -/
def getEnvironmentToolListTool (db : DB) (projectId : Option Nat) : McpToolCallResult :=
  textResult false
    (lb ++ "\"environments\":"
      ++ renderArray ((getServiceNinjaEnvs db projectId).map renderEnv) ++ rb)

/-! ## Tool layer: resource tools (src/unnamed/part_010) -/

/-- createServiceNinjaResourceTool: fetch the (project, environment)
scoped list, reject a case-insensitive duplicate, otherwise insert. -/
def createServiceNinjaResourceTool (db : DB) (a : ResourceArgs) :
    Except String (DB × McpToolCallResult) :=
  let resources := getServiceNinjaResources db a.projectId a.envId
  let dup := match a.name with
    | some n => resources.any (fun r => jsToLower r.name == jsToLower n)
    | none => false
  if dup then
    .ok (db, textResult true
      ("Resource with name \"" ++ jsShowS a.name ++ "\" already exists in this environment."))
  else
    match createServiceNinjaResource db a with
    | .error e => .error e
    | .ok (db2, ok) =>
        .ok (db2, textResult false
          ("Resource \"" ++ jsShowS a.name ++ "\" created successfully with ID "
            ++ toString ok ++ "."))

/-- readServiceNinjaResourceTool: get by name or id with optional scope
filters. -/
def readServiceNinjaResourceTool (db : DB) (name : Option String)
    (id projectId envId : Option Nat) : Except String McpToolCallResult :=
  match getServiceNinjaResource db name id projectId envId with
  | .error e => .error e
  | .ok none => .ok (textResult true "Resource not found.")
  | .ok (some r) =>
      .ok (textDataResult false "Resource details retrieved successfully."
        (lb ++ "\"resource\":" ++ renderResource r ++ rb))

/-- updateServiceNinjaResourceTool: awaits the repo update; the envelope
is never marked as an error, only its text depends on the success flag.
A repo throw (falsy id or empty patch) is not handled, so the promise
rejects and the store is untouched. -/
def updateServiceNinjaResourceTool (db : DB) (a : ResourceArgs) :
    Except String (DB × McpToolCallResult) :=
  match updateServiceNinjaResource db a with
  | .error e => .error e
  | .ok (db2, ok) =>
      .ok (db2, textResult false
        (if ok then "Resource updated successfully." else "Failed to update resource."))

/-- deleteServiceNinjaResourceTool: fixed success envelope whether or not
a row existed; a repo throw (falsy id) rejects. -/
def deleteServiceNinjaResourceTool (db : DB) (id : Option Nat) :
    Except String (DB × McpToolCallResult) :=
  match deleteServiceNinjaResource db id with
  | .error e => .error e
  | .ok (db2, _) => .ok (db2, textResult false "Resource deleted successfully.")

/-- getResourceToolListTool: list resources, optionally scoped. -/
def getResourceToolListTool (db : DB) (projectId envId : Option Nat) : McpToolCallResult :=
  textDataResult false "Resource list retrieved successfully."
    (lb ++ "\"resources\":"
      ++ renderArray ((getServiceNinjaResources db projectId envId).map renderResource) ++ rb)

/-! ## Tool layer: resource monitoring (src/unnamed/part_008)

`jsonErr h = some m` models `JSON.parse(h)` throwing with message `m`;
`now` models `Date.now()`. -/

/-- Liveness payload on a resolved probe:
alive true with status code and response time. -/
def aliveTrueJson (statusCode now : Nat) : String :=
  lb ++ "\"alive\":true,\"statusCode\":" ++ toString statusCode
    ++ ",\"responseTime\":" ++ toString now ++ rb

/-- Liveness payload on a rejected probe: alive false with the error. -/
def aliveFalseJson (message : String) : String :=
  lb ++ "\"alive\":false,\"error\":" ++ jsonStr message ++ rb

/-- getResourceHealthStatusTool: look the resource up by id, reject with
an error envelope when it is missing or has no (truthy) health check URL,
otherwise decode the stored headers and GET the URL; every throw in the
body (repo lookup, header parse, request failure) is caught and wrapped
into an error envelope. -/
def getResourceHealthStatusTool (db : DB) (http : String → HttpOutcome)
    (jsonErr : String → Option String) (resourceId : Option Nat) :
    Except String McpToolCallResult :=
  match getServiceNinjaResource db none resourceId none none with
  | .error e =>
      .ok (textResult true ("Failed to get resource health status: " ++ e))
  | .ok none =>
      .ok (textResult true ("Resource with ID " ++ jsShowN resourceId ++ " not found"))
  | .ok (some r) =>
      if !truthyS r.healthCheckUrl then
        .ok (textResult true
          ("No health check URL configured for resource \"" ++ r.name ++ "\""))
      else
        match (if truthyS r.headers then jsonErr (r.headers.getD "") else none) with
        | some m =>
            .ok (textResult true ("Failed to get resource health status: " ++ m))
        | none =>
            match http (r.healthCheckUrl.getD "") with
            | .response _ dataText => .ok (textResult false dataText)
            | .failure m =>
                .ok (textResult true ("Failed to get resource health status: " ++ m))

/-- One entry of the fleet health scan. -/
def fleetEntry (http : String → HttpOutcome)
    (jsonErr : String → Option String) (r : ServiceNinjaResource) : String :=
  let head := lb ++ "\"resourceId\":" ++ toString r.id
    ++ ",\"resourceName\":" ++ jsonStr r.name
  if truthyS r.healthCheckUrl then
    match (if truthyS r.headers then jsonErr (r.headers.getD "") else none) with
    | some m => head ++ ",\"status\":\"unhealthy\",\"error\":" ++ jsonStr m ++ rb
    | none =>
        match http (r.healthCheckUrl.getD "") with
        | .response _ dataText =>
            head ++ ",\"status\":\"healthy\",\"data\":" ++ dataText ++ rb
        | .failure m =>
            head ++ ",\"status\":\"unhealthy\",\"error\":" ++ jsonStr m ++ rb
  else
    head ++ ",\"status\":\"no_health_check\",\"message\":\"No health check URL configured\"" ++ rb

/-- getProjectResourcesHealthStatusTool: list the scoped resources and
probe each one independently; a per-resource failure becomes an unhealthy
entry and never aborts the scan. -/
def getProjectResourcesHealthStatusTool (db : DB) (http : String → HttpOutcome)
    (jsonErr : String → Option String) (projectId envId : Option Nat) :
    Except String McpToolCallResult :=
  let resources := getServiceNinjaResources db projectId envId
  if resources.isEmpty then
    .ok (textResult false "[]")
  else
    .ok (textResult false (renderArray (resources.map (fleetEntry http jsonErr))))

/-- getResourceAliveStatusTool: guard on a falsy resource id, look the
resource up, reject with an error envelope when it is missing or has no
(truthy) alive check URL, then GET the URL with a 5 second timeout.
The catch deliberately reports isError false: a failed probe (header
parse throw, network error, timeout, non-2xx) is the monitoring answer
alive false, not a tool error. -/
def getResourceAliveStatusTool (db : DB) (http : String → HttpOutcome)
    (jsonErr : String → Option String) (now : Nat) (resourceId : Option Nat) :
    Except String McpToolCallResult :=
  if !truthyN resourceId then
    .ok (textResult true "Resource ID is required")
  else
    match getServiceNinjaResource db none resourceId none none with
    | .error e => .ok (textResult false (aliveFalseJson e))
    | .ok none =>
        .ok (textResult true ("Resource with ID " ++ jsShowN resourceId ++ " not found"))
    | .ok (some r) =>
        if !truthyS r.aliveCheckUrl then
          .ok (textResult true
            ("No alive check URL configured for resource \"" ++ r.name ++ "\""))
        else
          match (if truthyS r.headers then jsonErr (r.headers.getD "") else none) with
          | some m => .ok (textResult false (aliveFalseJson m))
          | none =>
              match http (r.aliveCheckUrl.getD "") with
              | .response s _ => .ok (textResult false (aliveTrueJson s now))
              | .failure m => .ok (textResult false (aliveFalseJson m))

/-! ## Tool layer: contact tools
(src/mcp-server/src/tools/service-ninja/service-ninja-contact.tool.ts) -/

/-- updateServiceNinjaContactTool: require an id, require the contact to
exist, validate a supplied email and reject one already owned by a
different contact, then run the repo update inside a try. -/
def updateServiceNinjaContactTool (db : DB) (a : ContactArgs) :
    Except String (DB × McpToolCallResult) :=
  if !truthyN a.id then
    .ok (db, textResult true "Contact ID is required.")
  else
    match getServiceNinjaContact db none a.id with
    | .error e => .error e
    | .ok none =>
        .ok (db, textResult true
          ("No contact found with ID " ++ jsShowN a.id ++ "."))
    | .ok (some _) =>
        if truthyS a.email && !emailRegexTest (a.email.getD "") then
          .ok (db, textResult true "Invalid email format.")
        else
          let emailTaken :=
            if truthyS a.email then
              match getServiceNinjaContact db a.email none with
              | .ok (some c2) => c2.id != a.id.getD 0
              | _ => false
            else false
          if emailTaken then
            .ok (db, textResult true
              ("Email \"" ++ jsShowS a.email ++ "\" is already used by another contact."))
          else
            match updateServiceNinjaContact db a with
            | .error e =>
                .ok (db, textResult true ("Failed to update contact: " ++ e))
            | .ok (db2, ok) =>
                if !ok then
                  .ok (db2, textResult true "Failed to update contact.")
                else
                  .ok (db2, textResult false "Contact updated successfully.")

/-- deleteServiceNinjaContactTool: require an id, re-fetch the contact and
report not-found for a missing id instead of a false success, then delete
inside a try. -/
def deleteServiceNinjaContactTool (db : DB) (id : Option Nat) :
    Except String (DB × McpToolCallResult) :=
  if !truthyN id then
    .ok (db, textResult true "Contact ID is required.")
  else
    match getServiceNinjaContact db none id with
    | .error e => .error e
    | .ok none =>
        .ok (db, textResult true ("No contact found with ID " ++ jsShowN id ++ "."))
    | .ok (some c) =>
        match deleteServiceNinjaContact db id with
        | .error e => .ok (db, textResult true ("Failed to delete contact: " ++ e))
        | .ok (db2, ok) =>
            if !ok then
              .ok (db2, textResult true "Failed to delete contact.")
            else
              .ok (db2, textResult false
                ("Contact \"" ++ c.firstName ++ " " ++ c.lastName
                  ++ "\" deleted successfully."))

/-! ## Tool layer: resource-contact tools
(src/mcp-server/src/tools/service-ninja/service-ninja-project.tool.ts,
second document) -/

/-- createServiceNinjaResourceContactTool: require both ids and a role,
reject a pair that already has an association with an error naming the
existing role, then insert inside a try. -/
def createServiceNinjaResourceContactTool (db : DB)
    (resourceId contactId : Option Nat) (role : Option String) :
    Except String (DB × McpToolCallResult) :=
  if !truthyN resourceId || !truthyN contactId || !truthyS role then
    .ok (db, textResult true "Resource ID, Contact ID, and role are required.")
  else
    match getResourceContact db resourceId contactId with
    | .error e => .error e
    | .ok (some existing) =>
        .ok (db, textResult true
          ("Resource-contact association already exists with role \""
            ++ existing.role ++ "\"."))
    | .ok none =>
        match createResourceContact db resourceId contactId role with
        | .error e =>
            .ok (db, textResult true
              ("Failed to create resource-contact association: " ++ e))
        | .ok (db2, _) =>
            .ok (db2, textResult false
              ("Resource-contact association created successfully with role \""
                ++ role.getD "" ++ "\"."))

/-- deleteServiceNinjaResourceContactTool: require both ids, re-fetch the
association and report not-found for a missing pair instead of a false
success, then delete inside a try. -/
def deleteServiceNinjaResourceContactTool (db : DB)
    (resourceId contactId : Option Nat) : Except String (DB × McpToolCallResult) :=
  if !truthyN resourceId || !truthyN contactId then
    .ok (db, textResult true "Both Resource ID and Contact ID are required.")
  else
    match getResourceContact db resourceId contactId with
    | .error e =>
        .ok (db, textResult true
          ("Failed to delete resource-contact association: " ++ e))
    | .ok none =>
        .ok (db, textResult true
          ("No resource-contact association found for resource ID "
            ++ jsShowN resourceId ++ " and contact ID "
            ++ jsShowN contactId ++ "."))
    | .ok (some _) =>
        match deleteResourceContact db resourceId contactId with
        | .error e =>
            .ok (db, textResult true
              ("Failed to delete resource-contact association: " ++ e))
        | .ok (db2, ok) =>
            if !ok then
              .ok (db2, textResult true "Failed to delete resource-contact association.")
            else
              .ok (db2, textResult false
                "Resource-contact association deleted successfully.")

/-! ## Dispatcher (src/unnamed/part_002, second document) -/

/-- The duck-typed argument object a tool call carries, with every field
the routed handlers read. -/
structure ToolArgs where
  id : Option Nat := none
  name : Option String := none
  description : Option String := none
  type : Option String := none
  projectId : Option Nat := none
  envId : Option Nat := none
  healthCheckUrl : Option String := none
  aliveCheckUrl : Option String := none
  headers : Option String := none
  isIhService : Option Bool := none
  resourceId : Option Nat := none
deriving Repr, DecidableEq

def ToolArgs.toResourceArgs (a : ToolArgs) : ResourceArgs :=
  { id := a.id, name := a.name, description := a.description, type := a.type,
    projectId := a.projectId, envId := a.envId,
    healthCheckUrl := a.healthCheckUrl, aliveCheckUrl := a.aliveCheckUrl,
    headers := a.headers, isIhService := a.isIhService }

/-- A parsed tool-call request body. -/
structure McpToolCallRequest where
  name : Option String := none
  arguments : ToolArgs := {}
deriving Repr, DecidableEq

/-- ToolCallController: validate the body and tool name, then route by
name; an unknown name is an error envelope, never a throw.  Every known
branch RETURNS the handler promise from inside the try block WITHOUT
awaiting it, so the try/catch guards only the synchronous prelude (which
cannot throw after the guards) and a handler rejection is adopted by the
returned promise unseen by the catch: it crosses the dispatch boundary
as a rejection, which this embedding keeps as `Except.error`. -/
def ToolCallController (db : DB) (http : String → HttpOutcome)
    (jsonErr : String → Option String) (now : Nat)
    (body : Option McpToolCallRequest) : Except String (DB × McpToolCallResult) :=
  match body with
  | none => .ok (db, textResult true "Invalid request body")
  | some req =>
      match req.name with
      | none => .ok (db, textResult true "Missing or invalid tool name")
      | some n =>
          if n.isEmpty then .ok (db, textResult true "Missing or invalid tool name")
          else
            let a := req.arguments
            match n with
            | "create_project" => createServiceNinjaProjectTool db a.name a.description
            | "list_projects" => .ok (db, getProjectToolListTool db)
            | "get_project_by_id" =>
                (readServiceNinjaProjectTool db a.name a.id).map (fun r => (db, r))
            | "get_project_by_name" =>
                (readServiceNinjaProjectTool db a.name a.id).map (fun r => (db, r))
            | "update_project" =>
                updateServiceNinjaProjectTool db a.id a.name a.description
            | "delete_project" => deleteServiceNinjaProjectTool db a.id
            | "create_environment" =>
                createServiceNinjaEnvironmentTool db a.name a.description a.projectId
            | "list_environments" =>
                .ok (db, getEnvironmentToolListTool db a.projectId)
            | "get_environment_by_id" =>
                (readServiceNinjaEnvironmentTool db a.name a.id a.projectId).map
                  (fun r => (db, r))
            | "get_environment_by_name" =>
                (readServiceNinjaEnvironmentTool db a.name a.id a.projectId).map
                  (fun r => (db, r))
            | "update_environment" =>
                updateServiceNinjaEnvironmentTool db a.id a.name a.description a.projectId
            | "delete_environment" => deleteServiceNinjaEnvironmentTool db a.id
            | "create_resource" => createServiceNinjaResourceTool db a.toResourceArgs
            | "list_resources" =>
                .ok (db, getResourceToolListTool db a.projectId a.envId)
            | "get_resource_by_id" =>
                (readServiceNinjaResourceTool db a.name a.id a.projectId a.envId).map
                  (fun r => (db, r))
            | "get_resource_by_name" =>
                (readServiceNinjaResourceTool db a.name a.id a.projectId a.envId).map
                  (fun r => (db, r))
            | "update_resource" => updateServiceNinjaResourceTool db a.toResourceArgs
            | "delete_resource" => deleteServiceNinjaResourceTool db a.id
            | "get_resource_health_status" =>
                (getResourceHealthStatusTool db http jsonErr a.resourceId).map
                  (fun r => (db, r))
            | "get_project_resources_health_status" =>
                (getProjectResourcesHealthStatusTool db http jsonErr a.projectId a.envId).map
                  (fun r => (db, r))
            | "get_resource_alive_status" =>
                (getResourceAliveStatusTool db http jsonErr now a.resourceId).map
                  (fun r => (db, r))
            | _ => .ok (db, textResult true ("Unknown tool: " ++ n))

/-! ## Tool Catalogue (src/mcp-server/src/tool-schema)

Each descriptor keeps the name, human description, optional handler
function name, declared property names with their JSON types, and the
required-field list.  Per-property length, range and format constraints
and per-property descriptions are elided; no claim concerns them. -/

structure McpInputSchema where
  properties : List (String × String)
  required : List String
deriving Repr, DecidableEq

structure McpToolSchema where
  name : String
  description : String
  functionName : Option String := none
  inputSchema : McpInputSchema
deriving Repr, DecidableEq

structure McpToolsResponse where
  tools : List McpToolSchema
deriving Repr, DecidableEq

def contactToolSchemas : List McpToolSchema :=
  [{ name := "create_contact", description := "Create a new contact",
     functionName := some "createServiceNinjaContactTool",
     inputSchema :=
       { properties := [("firstName", "string"), ("lastName", "string"),
           ("email", "string"), ("phone", "string")],
         required := ["firstName", "lastName", "email"] } },
   { name := "list_contacts", description := "List all contacts",
     functionName := some "getContactToolListTool",
     inputSchema := { properties := [], required := [] } },
   { name := "get_contact_by_id", description := "Get a contact by its ID",
     functionName := some "readServiceNinjaContactTool",
     inputSchema := { properties := [("id", "number")], required := ["id"] } },
   { name := "get_contact_by_email",
     description := "Get a contact by its email address",
     functionName := some "readServiceNinjaContactTool",
     inputSchema := { properties := [("email", "string")], required := ["email"] } },
   { name := "update_contact", description := "Update an existing contact",
     functionName := some "updateServiceNinjaContactTool",
     inputSchema :=
       { properties := [("id", "number"), ("firstName", "string"),
           ("lastName", "string"), ("email", "string"), ("phone", "string")],
         required := ["id"] } },
   { name := "delete_contact", description := "Delete an existing contact",
     functionName := some "deleteServiceNinjaContactTool",
     inputSchema := { properties := [("id", "number")], required := ["id"] } },
   { name := "search_contacts", description := "Search contacts by name or email",
     functionName := some "searchServiceNinjaContactsTool",
     inputSchema :=
       { properties := [("searchTerm", "string")], required := ["searchTerm"] } },
   { name := "create_resource_contact",
     description := "Create a new resource-contact association",
     functionName := some "createServiceNinjaResourceContactTool",
     inputSchema :=
       { properties := [("resourceId", "number"), ("contactId", "number"),
           ("role", "string")],
         required := ["resourceId", "contactId", "role"] } },
   { name := "list_resource_contacts",
     description := "List resource-contact associations, optionally filtered by resource or contact",
     functionName := some "getResourceContactToolListTool",
     inputSchema :=
       { properties := [("resourceId", "number"), ("contactId", "number")],
         required := [] } },
   { name := "get_resource_contact_by_ids",
     description := "Get a specific resource-contact association by resource ID and contact ID",
     functionName := some "readServiceNinjaResourceContactTool",
     inputSchema :=
       { properties := [("resourceId", "number"), ("contactId", "number")],
         required := ["resourceId", "contactId"] } },
   { name := "update_resource_contact",
     description := "Update the role of an existing resource-contact association",
     functionName := some "updateServiceNinjaResourceContactTool",
     inputSchema :=
       { properties := [("resourceId", "number"), ("contactId", "number"),
           ("role", "string")],
         required := ["resourceId", "contactId", "role"] } },
   { name := "delete_resource_contact",
     description := "Delete a resource-contact association",
     functionName := some "deleteServiceNinjaResourceContactTool",
     inputSchema :=
       { properties := [("resourceId", "number"), ("contactId", "number")],
         required := ["resourceId", "contactId"] } }]

def environmentToolSchemas : List McpToolSchema :=
  [{ name := "create_environment",
     description := "Create a new environment within a project",
     functionName := some "createServiceNinjaEnvironmentTool",
     inputSchema :=
       { properties := [("name", "string"), ("description", "string"),
           ("projectId", "number")],
         required := ["name", "projectId"] } },
   { name := "list_environments",
     description := "List all environments, optionally filtered by project",
     functionName := some "getEnvironmentToolListTool",
     inputSchema := { properties := [("projectId", "number")], required := [] } },
   { name := "get_environment_by_id",
     description := "Get an environment by its ID",
     functionName := some "readServiceNinjaEnvironmentTool",
     inputSchema :=
       { properties := [("id", "number"), ("projectId", "number")],
         required := ["id"] } },
   { name := "get_environment_by_name",
     description := "Get an environment by its name",
     functionName := some "readServiceNinjaEnvironmentTool",
     inputSchema :=
       { properties := [("name", "string"), ("projectId", "number")],
         required := ["name"] } },
   { name := "update_environment",
     description := "Update an existing environment",
     functionName := some "updateServiceNinjaEnvironmentTool",
     inputSchema :=
       { properties := [("id", "number"), ("name", "string"),
           ("description", "string"), ("projectId", "number")],
         required := ["id"] } },
   { name := "delete_environment",
     description := "Delete an existing environment",
     functionName := some "deleteServiceNinjaEnvironmentTool",
     inputSchema := { properties := [("id", "number")], required := ["id"] } }]

def projectToolSchemas : List McpToolSchema :=
  [{ name := "create_project", description := "Create a new project",
     functionName := some "createServiceNinjaProjectTool",
     inputSchema :=
       { properties := [("name", "string"), ("description", "string")],
         required := ["name", "description"] } },
   { name := "list_projects", description := "List all projects",
     functionName := some "getProjectToolListTool",
     inputSchema := { properties := [], required := [] } },
   { name := "update_project", description := "Update an existing project",
     functionName := some "updateServiceNinjaProjectTool",
     inputSchema :=
       { properties := [("id", "number"), ("name", "string"),
           ("description", "string")],
         required := ["id"] } },
   { name := "delete_project", description := "Delete an existing project",
     functionName := some "deleteServiceNinjaProjectTool",
     inputSchema := { properties := [("id", "number")], required := ["id"] } },
   { name := "get_project_by_name", description := "Get a project by its name",
     functionName := some "readServiceNinjaProjectTool",
     inputSchema := { properties := [("name", "string")], required := ["name"] } },
   { name := "get_project_by_id", description := "Get a project by its ID",
     functionName := some "readServiceNinjaProjectTool",
     inputSchema := { properties := [("id", "number")], required := ["id"] } }]

def resourceMonitoringToolSchemas : List McpToolSchema :=
  [{ name := "get_resource_health_status",
     description := "Get health status of a specific resource by making a request to its health check URL",
     functionName := some "getResourceHealthStatusTool",
     inputSchema :=
       { properties := [("resourceId", "number")], required := ["resourceId"] } },
   { name := "get_project_resources_health_status",
     description := "Get health status of all resources in a specific project environment",
     functionName := some "getProjectResourcesHealthStatusTool",
     inputSchema :=
       { properties := [("projectId", "number"), ("envId", "number")],
         required := ["projectId", "envId"] } },
   { name := "get_resource_alive_status",
     description := "Check if a specific resource is alive and responding by making a request to its alive check URL",
     functionName := some "getResourceAliveStatusTool",
     inputSchema :=
       { properties := [("resourceId", "number")], required := ["resourceId"] } }]

def resourceToolSchemas : List McpToolSchema :=
  [{ name := "create_resource",
     description := "Create a new resource within a project environment",
     inputSchema :=
       { properties := [("name", "string"), ("description", "string"),
           ("type", "string"), ("projectId", "number"), ("envId", "number"),
           ("healthCheckUrl", "string"), ("aliveCheckUrl", "string"),
           ("headers", "string"), ("isIhService", "boolean")],
         required := ["name", "description", "type", "projectId", "envId"] } },
   { name := "list_resources",
     description := "List all resources, optionally filtered by project and/or environment",
     inputSchema :=
       { properties := [("projectId", "number"), ("envId", "number")],
         required := [] } },
   { name := "get_resource_by_id", description := "Get a resource by its ID",
     inputSchema :=
       { properties := [("id", "number"), ("projectId", "number"),
           ("envId", "number")],
         required := ["id"] } },
   { name := "get_resource_by_name", description := "Get a resource by its name",
     inputSchema :=
       { properties := [("name", "string"), ("projectId", "number"),
           ("envId", "number")],
         required := ["name"] } },
   { name := "update_resource", description := "Update an existing resource",
     inputSchema :=
       { properties := [("id", "number"), ("name", "string"),
           ("description", "string"), ("type", "string"),
           ("projectId", "number"), ("envId", "number"),
           ("healthCheckUrl", "string"), ("aliveCheckUrl", "string"),
           ("headers", "string"), ("isIhService", "boolean")],
         required := ["id"] } },
   { name := "delete_resource", description := "Delete an existing resource",
     inputSchema := { properties := [("id", "number")], required := ["id"] } }]

/-- The registered Tool Catalogue
(src/mcp-server/src/tool-schema/index.ts). -/
def toolSchemaList : List McpToolSchema :=
  contactToolSchemas ++ environmentToolSchemas ++ projectToolSchemas
    ++ resourceMonitoringToolSchemas ++ resourceToolSchemas

/-- ToolsListingController
(src/mcp-server/src/controller/tools-listing.controller.ts): spreads the
project, environment, resource and resource-monitoring catalogues —
and only those — into the listing response. -/
def ToolsListingController : McpToolsResponse :=
  { tools := projectToolSchemas ++ environmentToolSchemas
      ++ resourceToolSchemas ++ resourceMonitoringToolSchemas }

/-! ## Helper lemmas -/

lemma find?_eq_of_unique {α : Type} {l : List α} {p : α → Bool} {a : α}
    (ha : a ∈ l) (hpa : p a = true) (huniq : ∀ b ∈ l, p b = true → b = a) :
    l.find? p = some a := by
  induction l with
  | nil => cases ha
  | cons x xs ih =>
      by_cases hx : p x = true
      · have hxa : x = a := huniq x (List.mem_cons_self x xs) hx
        rw [List.find?_cons_of_pos _ hx, hxa]
      · have hax : a ∈ xs := by
          rcases List.mem_cons.mp ha with h | h
          · subst h; exact absurd hpa hx
          · exact h
        rw [List.find?_cons_of_neg _ hx]
        exact ih hax (fun b hb hpb => huniq b (List.mem_cons_of_mem _ hb) hpb)

lemma find?_append_singleton {α : Type} {l : List α} {p : α → Bool} {x : α}
    (hl : ∀ b ∈ l, p b = false) (hx : p x = true) :
    (l ++ [x]).find? p = some x := by
  have h1 : l.find? p = none :=
    List.find?_eq_none.mpr (fun b hb => by simp [hl b hb])
  rw [List.find?_append, h1, List.find?_cons_of_pos _ hx]
  rfl

/-! ## Fixtures used by witnesses and counterexamples -/

def dbAcme : DB := { projects := [{ id := 1, name := "Acme", description := "d" }] }

def contactBad : ServiceNinjaContact :=
  { id := 1, firstName := "A", lastName := "B", email := "bad", phone := none }

def dbBadEmail : DB := { contacts := [contactBad] }

/-! ## Claim theorems -/

/-- C1 (code bug evidence): the dispatch boundary does not hold its
propagation policy.  An unknown tool name does produce an error envelope,
but a handler rejection crosses the boundary as a rejected promise: the
known-name branches return the handler promise from inside the try block
without awaiting it, so the catch never sees the rejection.  Concretely,
update_project with an empty patch makes the repository throw and the
controller promise rejects instead of resolving to an error envelope. -/
theorem dispatch_boundary_rejection :
    ToolCallController dbAcme (fun _ => .failure "") (fun _ => none) 0
        (some { name := some "update_project", arguments := { id := some 1 } })
      = .error "Failed to update project: Error: No fields to update"
    ∧ ToolCallController ({} : DB) (fun _ => .failure "") (fun _ => none) 0
        (some { name := some "bogus_tool" })
      = .ok (({} : DB), textResult true "Unknown tool: bogus_tool") :=
  ⟨rfl, rfl⟩

/-- C2: calling create_project with a name equal, case-insensitively, to
the name of any stored project returns an error envelope with an
already-exists message and leaves the store unchanged. -/
theorem create_project_rejects_case_insensitive_duplicate
    (db : DB) (p : ServiceNinjaProject) (hp : p ∈ db.projects)
    (n : String) (d : Option String) (hcase : jsToLower p.name = jsToLower n) :
    createServiceNinjaProjectTool db (some n) d =
      .ok (db, textResult true ("Project with name \"" ++ n ++ "\" already exists.")) := by
  have hdup : (getServiceNinjaProjects db).any
      (fun q => jsToLower q.name == jsToLower n) = true :=
    List.any_eq_true.mpr ⟨p, hp, by simp [hcase]⟩
  simp [createServiceNinjaProjectTool, hdup]

theorem create_project_duplicate_witness :
    createServiceNinjaProjectTool dbAcme (some "acme") (some "x") =
      .ok (dbAcme, textResult true ("Project with name \"" ++ "acme" ++ "\" already exists.")) :=
  create_project_rejects_case_insensitive_duplicate dbAcme
    { id := 1, name := "Acme", description := "d" } (by simp [dbAcme])
    "acme" (some "x") (by decide)

/-- C5: update_resource with an argument object carrying only the id
(every other field absent) rejects with the no-fields-to-update error at
both the repository and the tool layer; the throw happens before the
UPDATE statement runs, so the stored row is untouched, which the
embedding reflects by the error outcome producing no new store. -/
theorem update_resource_empty_patch_rejected (db : DB) (i : Nat) (hi : i ≠ 0) :
    updateServiceNinjaResource db { id := some i } =
        .error "Failed to update resource: Error: No fields to update"
      ∧ updateServiceNinjaResourceTool db { id := some i } =
        .error "Failed to update resource: Error: No fields to update" := by
  have hrepo : updateServiceNinjaResource db { id := some i } =
      .error "Failed to update resource: Error: No fields to update" := by
    simp [updateServiceNinjaResource, truthyN, truthyS, hi]
  exact ⟨hrepo, by simp [updateServiceNinjaResourceTool, hrepo]⟩

theorem update_resource_empty_patch_witness :
    updateServiceNinjaResource dbAcme { id := some 5 } =
        .error "Failed to update resource: Error: No fields to update"
      ∧ updateServiceNinjaResourceTool dbAcme { id := some 5 } =
        .error "Failed to update resource: Error: No fields to update" :=
  update_resource_empty_patch_rejected dbAcme 5 (by decide)

/-- C9 counterexample: the two handlers do not return a success envelope
for EVERY id — a zero (falsy) id makes the repository guard throw and the
handler promise reject instead. -/
theorem delete_project_resource_zero_id_rejects :
    deleteServiceNinjaProjectTool ({} : DB) (some 0)
        = .error "Failed to delete project: Error: Project ID is required for deletion"
      ∧ deleteServiceNinjaResourceTool ({} : DB) (some 0)
        = .error "Failed to delete resource: Error: Resource ID is required for deletion" :=
  ⟨rfl, rfl⟩

/-- C9 (amended): for every nonzero id — existing or not — delete_project
and delete_resource resolve to a non-error deleted-successfully envelope
with no existence pre-check, unlike delete_contact, which on an id with
no matching row returns a not-found error envelope, and unlike
delete_resource_contact, which on a pair with no matching association
returns a not-found error envelope. -/
theorem delete_project_resource_blind_success (db : DB) (i j : Nat)
    (hi : i ≠ 0) (hj : j ≠ 0) :
    deleteServiceNinjaProjectTool db (some i) =
        .ok ({ db with projects := db.projects.filter (fun p => p.id != i) },
          textResult false "Project deleted successfully.")
      ∧ deleteServiceNinjaResourceTool db (some i) =
        .ok ({ db with resources := db.resources.filter (fun r => r.id != i) },
          textResult false "Resource deleted successfully.")
      ∧ ((∀ c ∈ db.contacts, c.id ≠ i) →
          deleteServiceNinjaContactTool db (some i) =
            .ok (db, textResult true ("No contact found with ID " ++ toString i ++ ".")))
      ∧ ((∀ rc ∈ db.resourceContacts, ¬(rc.resourceId = i ∧ rc.contactId = j)) →
          deleteServiceNinjaResourceContactTool db (some i) (some j) =
            .ok (db, textResult true
              ("No resource-contact association found for resource ID "
                ++ toString i ++ " and contact ID " ++ toString j ++ "."))) := by
  refine ⟨?_, ?_, ?_, ?_⟩
  · simp [deleteServiceNinjaProjectTool, deleteServiceNinjaProject, truthyN, hi]
  · simp [deleteServiceNinjaResourceTool, deleteServiceNinjaResource, truthyN, hi]
  · intro hnone
    have hfind : db.contacts.find? (fun c => c.id == i) = none :=
      List.find?_eq_none.mpr (fun c hc => by simp [hnone c hc])
    simp [deleteServiceNinjaContactTool, getServiceNinjaContact, truthyN, truthyS,
      hi, hfind, jsShowN]
  · intro hnone
    have hfind : db.resourceContacts.find?
        (fun rc => rc.resourceId == i && rc.contactId == j) = none :=
      List.find?_eq_none.mpr (fun rc hrc => by simpa using hnone rc hrc)
    simp [deleteServiceNinjaResourceContactTool, getResourceContact, truthyN,
      hi, hj, hfind, jsShowN]

theorem delete_blind_success_witness :
    deleteServiceNinjaProjectTool ({} : DB) (some 7) =
        .ok (({} : DB), textResult false "Project deleted successfully.")
      ∧ deleteServiceNinjaResourceTool ({} : DB) (some 7) =
        .ok (({} : DB), textResult false "Resource deleted successfully.")
      ∧ deleteServiceNinjaContactTool ({} : DB) (some 7) =
        .ok (({} : DB), textResult true ("No contact found with ID " ++ toString 7 ++ "."))
      ∧ deleteServiceNinjaResourceContactTool ({} : DB) (some 7) (some 8) =
        .ok (({} : DB), textResult true
          ("No resource-contact association found for resource ID "
            ++ toString 7 ++ " and contact ID " ++ toString 8 ++ ".")) := by
  have h := delete_project_resource_blind_success ({} : DB) 7 8 (by decide) (by decide)
  exact ⟨h.1, h.2.1, h.2.2.1 (by intro c hc; cases hc),
    h.2.2.2 (by intro rc hrc; cases hrc)⟩

/-- C10 counterexample: re-supplying the own email of a stored contact is
NOT always accepted — a stored email that fails the validation regex is
rejected with an invalid-format error envelope even though the state has
pairwise-distinct emails. -/
theorem update_contact_own_invalid_email_rejected :
    updateServiceNinjaContactTool dbBadEmail { id := some 1, email := some "bad" } =
      .ok (dbBadEmail, textResult true "Invalid email format.") :=
  rfl

/-- Point lookup by id through the repository getter, for a store whose
resource ids are unambiguous at the looked-up id. -/
lemma getResource_by_id (db : DB) (r : ServiceNinjaResource)
    (hr : r ∈ db.resources) (hid : r.id ≠ 0)
    (huniq : ∀ s ∈ db.resources, s.id = r.id → s = r) :
    getServiceNinjaResource db none (some r.id) none none = .ok (some r) := by
  have hfind : db.resources.find? (fun s => s.id == r.id) = some r :=
    find?_eq_of_unique hr (by simp)
      (fun b hb hpb => huniq b hb (by simpa using hpb))
  simp [getServiceNinjaResource, truthyS, truthyN, hid, hfind]

/-- C3: probe outcome classification for a stored resource.  A missing
health check URL is a tool error naming the resource; a missing alive
check URL is a tool error; with an alive check URL configured, a probe
the client rejects (network error, timeout) resolves to isError false
with the alive-false payload carrying the error, and a probe the client
resolves yields isError false with the alive-true payload carrying the
status code. -/
theorem resource_probe_classification (db : DB) (http : String → HttpOutcome)
    (jsonErr : String → Option String) (now : Nat) (r : ServiceNinjaResource)
    (hr : r ∈ db.resources) (hid : r.id ≠ 0)
    (huniq : ∀ s ∈ db.resources, s.id = r.id → s = r) :
    (truthyS r.healthCheckUrl = false →
      getResourceHealthStatusTool db http jsonErr (some r.id)
        = .ok (textResult true
            ("No health check URL configured for resource \"" ++ r.name ++ "\"")))
    ∧ (truthyS r.aliveCheckUrl = false →
      getResourceAliveStatusTool db http jsonErr now (some r.id)
        = .ok (textResult true
            ("No alive check URL configured for resource \"" ++ r.name ++ "\"")))
    ∧ (∀ m, truthyS r.aliveCheckUrl = true →
        (truthyS r.headers = true → jsonErr (r.headers.getD "") = none) →
        http (r.aliveCheckUrl.getD "") = .failure m →
        getResourceAliveStatusTool db http jsonErr now (some r.id)
          = .ok (textResult false (aliveFalseJson m)))
    ∧ (∀ s dData, truthyS r.aliveCheckUrl = true →
        (truthyS r.headers = true → jsonErr (r.headers.getD "") = none) →
        http (r.aliveCheckUrl.getD "") = .response s dData →
        getResourceAliveStatusTool db http jsonErr now (some r.id)
          = .ok (textResult false (aliveTrueJson s now))) := by
  have hget := getResource_by_id db r hr hid huniq
  have hjn : ∀ (h : truthyS r.headers = true → jsonErr (r.headers.getD "") = none),
      (if truthyS r.headers then jsonErr (r.headers.getD "") else none) = none := by
    intro h
    by_cases hh : truthyS r.headers = true
    · simp [hh, h hh]
    · simp [hh]
  refine ⟨?_, ?_, ?_, ?_⟩
  · intro h
    simp [getResourceHealthStatusTool, hget, h]
  · intro h
    simp [getResourceAliveStatusTool, truthyN, hid, hget, h]
  · intro m hurl hjson hhttp
    simp [getResourceAliveStatusTool, truthyN, hid, hget, hurl, hjn hjson, hhttp]
  · intro s dData hurl hjson hhttp
    simp [getResourceAliveStatusTool, truthyN, hid, hget, hurl, hjn hjson, hhttp]

def resNoHealth : ServiceNinjaResource :=
  { id := 1, name := "svc", description := "d", healthCheckUrl := none,
    aliveCheckUrl := some "http://a/alive", headers := none,
    isIhService := false, type := "service", projectId := 1, envId := 1 }

def resNoAlive : ServiceNinjaResource :=
  { id := 2, name := "db", description := "d",
    healthCheckUrl := some "http://b/health", aliveCheckUrl := none,
    headers := none, isIhService := false, type := "database",
    projectId := 1, envId := 1 }

def dbProbe : DB := { resources := [resNoHealth, resNoAlive] }

theorem resource_probe_witness :
    getResourceHealthStatusTool dbProbe (fun _ => .failure "ECONNREFUSED")
        (fun _ => none) (some 1)
      = .ok (textResult true
          ("No health check URL configured for resource \"" ++ "svc" ++ "\""))
    ∧ getResourceAliveStatusTool dbProbe (fun _ => .failure "ECONNREFUSED")
        (fun _ => none) 0 (some 2)
      = .ok (textResult true
          ("No alive check URL configured for resource \"" ++ "db" ++ "\""))
    ∧ getResourceAliveStatusTool dbProbe
        (fun _ => .failure "timeout of 5000ms exceeded") (fun _ => none) 0 (some 1)
      = .ok (textResult false (aliveFalseJson "timeout of 5000ms exceeded"))
    ∧ getResourceAliveStatusTool dbProbe (fun _ => .response 200 "ok")
        (fun _ => none) 7 (some 1)
      = .ok (textResult false (aliveTrueJson 200 7)) := by
  refine ⟨?_, ?_, ?_, ?_⟩
  · exact (resource_probe_classification dbProbe (fun _ => .failure "ECONNREFUSED")
      (fun _ => none) 0 resNoHealth (by simp [dbProbe]) (by decide) (by decide)).1
      (by decide)
  · exact (resource_probe_classification dbProbe (fun _ => .failure "ECONNREFUSED")
      (fun _ => none) 0 resNoAlive (by simp [dbProbe]) (by decide) (by decide)).2.1
      (by decide)
  · exact (resource_probe_classification dbProbe
      (fun _ => .failure "timeout of 5000ms exceeded") (fun _ => none) 0 resNoHealth
      (by simp [dbProbe]) (by decide) (by decide)).2.2.1
      "timeout of 5000ms exceeded" (by decide) (by intro h; cases h) rfl
  · exact (resource_probe_classification dbProbe (fun _ => .response 200 "ok")
      (fun _ => none) 7 resNoHealth (by simp [dbProbe]) (by decide) (by decide)).2.2.2
      200 "ok" (by decide) (by intro h; cases h) rfl

/-- C4 counterexample: create_contact is registered in the Tool Catalogue
(toolSchemaList) but the listing result of ToolsListingController contains
no entry for it, because the controller spreads only the project,
environment, resource and resource-monitoring schema lists and omits the
contact and resource-contact descriptors. -/
theorem tools_listing_omits_contact_tools :
    ((toolSchemaList.map (fun t => t.name)).contains "create_contact") = true
    ∧ ((ToolsListingController.tools.map (fun t => t.name)).count "create_contact") = 0 := by
  exact ⟨rfl, rfl⟩

/-- C4 (amended): the listing result carries exactly one descriptor for
every registered tool EXCEPT the twelve contact and resource-contact
tools, which toolSchemaList registers but ToolsListingController omits;
no contact or resource-contact name appears in the listing at all. -/
theorem tools_listing_full_except_contacts :
    (toolSchemaList.all (fun t =>
        ((contactToolSchemas.map (fun s => s.name)).contains t.name)
          || ((ToolsListingController.tools.map (fun s => s.name)).count t.name == 1))) = true
    ∧ (contactToolSchemas.all (fun t =>
        ((ToolsListingController.tools.map (fun s => s.name)).count t.name == 0))) = true
    ∧ contactToolSchemas.length = 12 := by
  exact ⟨rfl, rfl, rfl⟩

/-- The ResourceContact invariant: a (resourceId, contactId) pair appears
at most once. -/
def rcPairUnique (db : DB) : Prop :=
  db.resourceContacts.Pairwise
    (fun a b => ¬(a.resourceId = b.resourceId ∧ a.contactId = b.contactId))

/-- With truthy ids and role, the create handler either rejects the pair
found in the store — naming the role of the found association — or
appends exactly one new association row. -/
lemma createRC_characterization (db : DB) (rid cid : Nat) (role : Option String)
    (hrid : rid ≠ 0) (hcid : cid ≠ 0) (hrole : truthyS role = true) :
    createServiceNinjaResourceContactTool db (some rid) (some cid) role
      = match db.resourceContacts.find?
          (fun rc => rc.resourceId == rid && rc.contactId == cid) with
        | some existing =>
            .ok (db, textResult true
              ("Resource-contact association already exists with role \""
                ++ existing.role ++ "\"."))
        | none =>
            .ok ({ db with resourceContacts := db.resourceContacts
                ++ [{ resourceId := rid, contactId := cid, role := role.getD "" }] },
              textResult false
                ("Resource-contact association created successfully with role \""
                  ++ role.getD "" ++ "\".")) := by
  have htr : truthyN (some rid) = true := by simp [truthyN, hrid]
  have htc : truthyN (some cid) = true := by simp [truthyN, hcid]
  cases hfind : db.resourceContacts.find?
      (fun rc => rc.resourceId == rid && rc.contactId == cid) with
  | some x =>
      simp [createServiceNinjaResourceContactTool, getResourceContact,
        htr, htc, hrole, hfind]
  | none =>
      simp [createServiceNinjaResourceContactTool, getResourceContact,
        createResourceContact, htr, htc, hrole, hfind]

/-- C6: the at-most-once invariant on (resourceId, contactId) pairs in
ResourceContact is preserved by every association operation — create
(which pre-checks the pair), update (which rewrites only the role) and
delete — and calling create_resource_contact for a pair that already has
an association returns an error envelope whose message says the
association already exists and carries the existing role, with no second
row inserted (the store is returned unchanged). -/
theorem resource_contact_create_preserves_pair_uniqueness
    (db : DB) (rid cid : Nat) (hrid : rid ≠ 0) (hcid : cid ≠ 0)
    (role : Option String) :
    (rcPairUnique db → ∀ db2 res,
        createServiceNinjaResourceContactTool db (some rid) (some cid) role
          = .ok (db2, res) → rcPairUnique db2)
    ∧ (rcPairUnique db → ∀ db2 res,
        updateResourceContact db (some rid) (some cid) role
          = .ok (db2, res) → rcPairUnique db2)
    ∧ (rcPairUnique db → ∀ db2 res,
        deleteResourceContact db (some rid) (some cid)
          = .ok (db2, res) → rcPairUnique db2)
    ∧ (∀ rc ∈ db.resourceContacts, rc.resourceId = rid → rc.contactId = cid →
        (∀ rc2 ∈ db.resourceContacts,
            rc2.resourceId = rid → rc2.contactId = cid → rc2 = rc) →
        truthyS role = true →
        createServiceNinjaResourceContactTool db (some rid) (some cid) role
          = .ok (db, textResult true
              ("Resource-contact association already exists with role \""
                ++ rc.role ++ "\"."))) := by
  have htr : truthyN (some rid) = true := by simp [truthyN, hrid]
  have htc : truthyN (some cid) = true := by simp [truthyN, hcid]
  refine ⟨?_, ?_, ?_, ?_⟩
  · intro hU db2 res h
    by_cases hrole : truthyS role = true
    · rw [createRC_characterization db rid cid role hrid hcid hrole] at h
      cases hfind : db.resourceContacts.find?
          (fun rc => rc.resourceId == rid && rc.contactId == cid) with
      | some x =>
          rw [hfind] at h
          simp only [Except.ok.injEq, Prod.mk.injEq] at h
          exact h.1 ▸ hU
      | none =>
          rw [hfind] at h
          simp only [Except.ok.injEq, Prod.mk.injEq] at h
          have hnew : ∀ a ∈ db.resourceContacts,
              ¬(a.resourceId = rid ∧ a.contactId = cid) := by
            intro a ha hac
            have := List.find?_eq_none.mp hfind a ha
            simp [hac.1, hac.2] at this
          have hU2 : rcPairUnique { db with resourceContacts :=
              db.resourceContacts
                ++ [{ resourceId := rid, contactId := cid, role := role.getD "" }] } := by
            unfold rcPairUnique at hU ⊢
            rw [List.pairwise_append]
            refine ⟨hU, by simp, ?_⟩
            intro a ha b hb
            simp only [List.mem_singleton] at hb
            subst hb
            exact hnew a ha
          exact h.1 ▸ hU2
    · have hguard : (!truthyN (some rid) || !truthyN (some cid)
          || !truthyS role) = true := by
        simp [hrole]
      simp [createServiceNinjaResourceContactTool, hguard] at h
      exact h.1 ▸ hU
  · intro hU db2 res h
    by_cases hrole : truthyS role = true
    · have hcomp : updateResourceContact db (some rid) (some cid) role
          = .ok ({ db with resourceContacts := db.resourceContacts.map (fun rc =>
              if rc.resourceId == rid && rc.contactId == cid then
                { rc with role := role.getD "" } else rc) },
            db.resourceContacts.any (fun rc =>
              rc.resourceId == rid && rc.contactId == cid)) := by
        simp [updateResourceContact, htr, htc, hrole]
      rw [hcomp] at h
      simp only [Except.ok.injEq, Prod.mk.injEq] at h
      obtain ⟨h1, -⟩ := h
      subst h1
      unfold rcPairUnique at hU ⊢
      rw [List.pairwise_map]
      refine hU.imp ?_
      intro a b hab hcontra
      apply hab
      have pres : ∀ x : ServiceNinjaResourceContact,
          ((if x.resourceId == rid && x.contactId == cid then
              { x with role := role.getD "" } else x).resourceId = x.resourceId
            ∧ (if x.resourceId == rid && x.contactId == cid then
              { x with role := role.getD "" } else x).contactId = x.contactId) := by
        intro x
        by_cases hx : (x.resourceId == rid && x.contactId == cid) = true <;> simp [hx]
      refine ⟨?_, ?_⟩
      · rw [← (pres a).1, ← (pres b).1]
        exact hcontra.1
      · rw [← (pres a).2, ← (pres b).2]
        exact hcontra.2
    · have hguard : (!truthyN (some rid) || !truthyN (some cid)
          || !truthyS role) = true := by
        simp [hrole]
      simp [updateResourceContact, hguard] at h
  · intro hU db2 res h
    have hcomp : deleteResourceContact db (some rid) (some cid)
        = .ok ({ db with resourceContacts := db.resourceContacts.filter (fun rc =>
            !(rc.resourceId == rid && rc.contactId == cid)) },
          db.resourceContacts.any (fun rc =>
            rc.resourceId == rid && rc.contactId == cid)) := by
      simp [deleteResourceContact, htr, htc]
    rw [hcomp] at h
    simp only [Except.ok.injEq, Prod.mk.injEq] at h
    obtain ⟨h1, -⟩ := h
    subst h1
    unfold rcPairUnique at hU ⊢
    exact hU.sublist (List.filter_sublist _)
  · intro rc hmem h1 h2 huq hrole
    have hfind : db.resourceContacts.find?
        (fun b => b.resourceId == rid && b.contactId == cid) = some rc :=
      find?_eq_of_unique hmem (by simp [h1, h2])
        (fun b hb hpb => by
          have hp := by simpa using hpb
          exact huq b hb hp.1 hp.2)
    rw [createRC_characterization db rid cid role hrid hcid hrole, hfind]

def rcOwner : ServiceNinjaResourceContact :=
  { resourceId := 3, contactId := 4, role := "owner" }

def dbRC : DB := { resourceContacts := [rcOwner] }

theorem resource_contact_duplicate_witness :
    createServiceNinjaResourceContactTool dbRC (some 3) (some 4) (some "maintainer")
      = .ok (dbRC, textResult true
          ("Resource-contact association already exists with role \""
            ++ "owner" ++ "\"."))
    ∧ rcPairUnique dbRC := by
  constructor
  · exact (resource_contact_create_preserves_pair_uniqueness dbRC 3 4
      (by decide) (by decide) (some "maintainer")).2.2.2 rcOwner (by simp [dbRC])
      rfl rfl (by decide) (by decide)
  · unfold rcPairUnique
    simp [dbRC]

def projFrame : ServiceNinjaProject := { id := 1, name := "p", description := "old" }

def envFrame : ServiceNinjaEnv :=
  { id := 1, name := "e", description := some "x", projectId := 1 }

def resFrame : ServiceNinjaResource :=
  { id := 1, name := "r", description := "d", healthCheckUrl := some "http://h",
    aliveCheckUrl := none, headers := none, isIhService := false,
    type := "service", projectId := 1, envId := 1 }

def conFrame : ServiceNinjaContact :=
  { id := 1, firstName := "A", lastName := "B", email := "a@b.c", phone := none }

def dbFrame : DB :=
  { projects := [projFrame], envs := [envFrame],
    resources := [resFrame], contacts := [conFrame] }

/-- C7 counterexample: supplying an explicit empty string is NOT always a
rewrite to that value — update_project gates its description on JS
truthiness, so the explicit empty string counts as omission, the patch is
effectively empty and the call throws no-fields-to-update instead of
rewriting the stored description (which stays "old"). -/
theorem update_project_explicit_empty_string_ignored :
    updateServiceNinjaProject dbFrame (some 1) none (some "")
      = .error "Failed to update project: Error: No fields to update" :=
  rfl

/-- C7 (amended): for every update with a valid (nonzero) id and an
effectively nonempty patch, exactly the effectively-supplied fields of
the row with that id are rewritten and all omitted fields and all other
rows are untouched.  Truthiness-gated fields (project name/description;
environment name, projectId; resource name, type, projectId, envId;
contact firstName, lastName, email) count as supplied only when nonempty
and nonzero, while undefined-gated fields (environment description;
resource description, healthCheckUrl, aliveCheckUrl, headers,
isIhService; contact phone) are rewritten whenever present, including to
an explicit empty string.  A project rename must not collide with the
exact name of a different row (the UNIQUE index), and a supplied contact
email must pass the format check. -/
theorem update_patch_frame (db : DB) :
    (∀ (i : Nat) (name description : Option String), i ≠ 0 →
      (truthyS name || truthyS description) = true →
      (truthyS name = true →
        ∀ q ∈ db.projects, q.id ≠ i → q.name ≠ name.getD "") →
      updateServiceNinjaProject db (some i) name description
        = .ok ({ db with projects := db.projects.map (fun p =>
            if p.id == i then
              { p with
                name := if truthyS name then name.getD p.name else p.name,
                description := if truthyS description then
                  description.getD p.description else p.description }
            else p) },
          db.projects.any (fun p => p.id == i)))
    ∧ (∀ (i : Nat) (name description : Option String) (projectId : Option Nat),
      i ≠ 0 →
      (truthyS name || description.isSome || truthyN projectId) = true →
      updateServiceNinjaEnv db (some i) name description projectId
        = .ok ({ db with envs := db.envs.map (fun e =>
            if e.id == i then
              { e with
                name := if truthyS name then name.getD e.name else e.name,
                description := if description.isSome then description
                  else e.description,
                projectId := if truthyN projectId then
                  projectId.getD e.projectId else e.projectId }
            else e) },
          db.envs.any (fun e => e.id == i)))
    ∧ (∀ a : ResourceArgs, truthyN a.id = true →
      (truthyS a.name || a.description.isSome || truthyS a.type
        || truthyN a.projectId || truthyN a.envId || a.healthCheckUrl.isSome
        || a.aliveCheckUrl.isSome || a.headers.isSome
        || a.isIhService.isSome) = true →
      updateServiceNinjaResource db a
        = .ok ({ db with resources := db.resources.map (fun r =>
            if r.id == a.id.getD 0 then
              { r with
                name := if truthyS a.name then a.name.getD r.name else r.name,
                description := if a.description.isSome then
                  a.description.getD r.description else r.description,
                type := if truthyS a.type then a.type.getD r.type else r.type,
                projectId := if truthyN a.projectId then
                  a.projectId.getD r.projectId else r.projectId,
                envId := if truthyN a.envId then a.envId.getD r.envId else r.envId,
                healthCheckUrl := if a.healthCheckUrl.isSome then
                  a.healthCheckUrl else r.healthCheckUrl,
                aliveCheckUrl := if a.aliveCheckUrl.isSome then
                  a.aliveCheckUrl else r.aliveCheckUrl,
                headers := if a.headers.isSome then a.headers else r.headers,
                isIhService := if a.isIhService.isSome then
                  a.isIhService.getD r.isIhService else r.isIhService }
            else r) },
          db.resources.any (fun r => r.id == a.id.getD 0)))
    ∧ (∀ a : ContactArgs, truthyN a.id = true →
      (truthyS a.email = true → emailRegexTest (a.email.getD "") = true) →
      (truthyS a.firstName || truthyS a.lastName || truthyS a.email
        || a.phone.isSome) = true →
      updateServiceNinjaContact db a
        = .ok ({ db with contacts := db.contacts.map (fun c =>
            if c.id == a.id.getD 0 then
              { c with
                firstName := if truthyS a.firstName then
                  a.firstName.getD c.firstName else c.firstName,
                lastName := if truthyS a.lastName then
                  a.lastName.getD c.lastName else c.lastName,
                email := if truthyS a.email then a.email.getD c.email else c.email,
                phone := if a.phone.isSome then a.phone else c.phone }
            else c) },
          db.contacts.any (fun c => c.id == a.id.getD 0))) := by
  refine ⟨?_, ?_, ?_, ?_⟩
  · intro i name description hi hsup hno
    have hid : truthyN (some i) = true := by simp [truthyN, hi]
    have hc1 : (!truthyS name && !truthyS description) = false := by
      cases htn : truthyS name <;> cases htd : truthyS description <;>
        simp_all
    have hc2 : (truthyS name
        && db.projects.any (fun p => p.id == i)
        && db.projects.any (fun p => p.id != i && p.name == name.getD "")) = false := by
      by_cases htn : truthyS name = true
      · have hany : db.projects.any
            (fun p => p.id != i && p.name == name.getD "") = false := by
          rw [List.any_eq_false]
          intro q hq
          by_cases hqi : q.id = i
          · simp [hqi]
          · simp [hqi, hno htn q hq hqi]
        simp [hany]
      · simp [Bool.not_eq_true] at htn
        simp [htn]
    simp [updateServiceNinjaProject, hid, hc1, hc2]
  · intro i name description projectId hi hsup
    have hid : truthyN (some i) = true := by simp [truthyN, hi]
    simp [updateServiceNinjaEnv, hid]
    intro h1 h2
    simp [h1, h2] at hsup
    exact hsup
  · intro a hid hsup
    simp [updateServiceNinjaResource, hid]
    intro h1 h2 h3 h4 h5 h6 h7 h8
    cases h9 : a.isIhService <;>
      simp [h1, h2, h3, h4, h5, h6, h7, h8, h9] at hsup ⊢
  · intro a hid hfmt hsup
    have hc0 : (truthyS a.email && !emailRegexTest (a.email.getD "")) = false := by
      by_cases he : truthyS a.email = true
      · simp [he, hfmt he]
      · simp [Bool.not_eq_true] at he
        simp [he]
    simp [updateServiceNinjaContact, hid, hc0]
    intro h1 h2 h3
    cases h4 : a.phone <;> simp [h1, h2, h3, h4] at hsup ⊢

theorem update_patch_frame_witness :
    updateServiceNinjaProject dbFrame (some 1) (some "p2") (some "")
      = .ok ({ dbFrame with projects := [{ projFrame with name := "p2" }] }, true)
    ∧ updateServiceNinjaEnv dbFrame (some 1) none (some "") none
      = .ok ({ dbFrame with envs := [{ envFrame with description := some "" }] }, true)
    ∧ updateServiceNinjaResource dbFrame { id := some 1, healthCheckUrl := some "" }
      = .ok ({ dbFrame with
          resources := [{ resFrame with healthCheckUrl := some "" }] }, true)
    ∧ updateServiceNinjaContact dbFrame { id := some 1, phone := some "" }
      = .ok ({ dbFrame with
          contacts := [{ conFrame with phone := some "" }] }, true) := by
  refine ⟨?_, ?_, ?_, ?_⟩
  · exact (update_patch_frame dbFrame).1 1 (some "p2") (some "")
      (by decide) (by decide) (by decide)
  · exact (update_patch_frame dbFrame).2.1 1 none (some "") none
      (by decide) (by decide)
  · exact (update_patch_frame dbFrame).2.2.1
      { id := some 1, healthCheckUrl := some "" } (by decide) (by decide)
  · exact (update_patch_frame dbFrame).2.2.2
      { id := some 1, phone := some "" } (by decide) (by decide) (by decide)

/-- The row the resource INSERT builds from its arguments: required
fields as supplied, optional columns through the `x || null` coalescing
and `isIhService || false`. -/
def createdResource (db : DB) (a : ResourceArgs) : ServiceNinjaResource :=
  { id := freshId (db.resources.map (fun r => r.id)),
    name := a.name.getD "", description := a.description.getD "",
    type := a.type.getD "", projectId := a.projectId.getD 0,
    envId := a.envId.getD 0, healthCheckUrl := jsOrNull a.healthCheckUrl,
    aliveCheckUrl := jsOrNull a.aliveCheckUrl, headers := jsOrNull a.headers,
    isIhService := a.isIhService.getD false }

def rArgsEmptyUrl : ResourceArgs :=
  { name := some "r", description := some "d", type := some "service",
    projectId := some 1, envId := some 1, healthCheckUrl := some "" }

def rowREmptyUrl : ServiceNinjaResource :=
  { id := 1, name := "r", description := "d", healthCheckUrl := none,
    aliveCheckUrl := none, headers := none, isIhService := false,
    type := "service", projectId := 1, envId := 1 }

def dbAfterCreateR : DB := { resources := [rowREmptyUrl] }

/-- C8 counterexample: the create-then-read round trip is NOT exact for
every supplied field — a supplied empty-string optional URL is coalesced
to NULL by the create (the `x || null` idiom), so the read-back row
differs from what was supplied. -/
theorem create_then_get_empty_url_normalized :
    createServiceNinjaResource ({} : DB) rArgsEmptyUrl = .ok (dbAfterCreateR, true)
    ∧ getServiceNinjaResource dbAfterCreateR (some "r") none none none
      = .ok (some rowREmptyUrl)
    ∧ rowREmptyUrl.healthCheckUrl ≠ rArgsEmptyUrl.healthCheckUrl := by
  refine ⟨rfl, rfl, by decide⟩

/-- The row the project INSERT builds. -/
def createdProject (db : DB) (n d : String) : ServiceNinjaProject :=
  { id := freshId (db.projects.map (fun p => p.id)), name := n, description := d }

/-- The row the environment INSERT builds (`description || empty`). -/
def createdEnv (db : DB) (n : String) (d : Option String) (pid : Nat) : ServiceNinjaEnv :=
  { id := freshId (db.envs.map (fun e => e.id)), name := n,
    description := some (d.getD ""), projectId := pid }

/-- The row the contact INSERT builds (`phone || null`). -/
def createdContact (db : DB) (f l e : String) (p : Option String) : ServiceNinjaContact :=
  { id := freshId (db.contacts.map (fun c => c.id)), firstName := f,
    lastName := l, email := e, phone := jsOrNull p }

/-- C8 (amended): creating an entity and immediately reading it back by
the same natural key returns exactly the supplied values plus the
store-assigned id, EXCEPT that falsy optional values are normalized on
create: an empty-string resource healthCheckUrl, aliveCheckUrl, headers
or contact phone is stored as NULL (the `x || null` idiom), an omitted
environment description is stored as the empty string (the `x || empty`
idiom), and an omitted isIhService is stored as false.  The freshness
hypothesis on the natural key is what the create handlers establish with
their duplicate pre-checks before calling these repository functions. -/
theorem create_then_get_roundtrip (db : DB) :
    (∀ n d : String, n ≠ "" → d ≠ "" →
      (∀ p ∈ db.projects, p.name ≠ n) →
      createServiceNinjaProject db (some n) (some d)
        = .ok ({ db with projects := db.projects ++ [createdProject db n d] }, true)
      ∧ getServiceNinjaProject
          { db with projects := db.projects ++ [createdProject db n d] }
          (some n) none
        = .ok (some (createdProject db n d)))
    ∧ (∀ (n : String) (d : Option String) (pid : Nat), n ≠ "" → pid ≠ 0 →
      (∀ e ∈ db.envs, ¬(e.name = n ∧ e.projectId = pid)) →
      createServiceNinjaEnv db (some n) d (some pid)
        = .ok ({ db with envs := db.envs ++ [createdEnv db n d pid] }, true)
      ∧ getServiceNinjaEnv { db with envs := db.envs ++ [createdEnv db n d pid] }
          (some n) none (some pid)
        = .ok (some (createdEnv db n d pid)))
    ∧ (∀ a : ResourceArgs, truthyS a.name = true → truthyS a.description = true →
      truthyS a.type = true → truthyN a.projectId = true → truthyN a.envId = true →
      (∀ r ∈ db.resources, ¬(r.name = a.name.getD ""
        ∧ r.projectId = a.projectId.getD 0 ∧ r.envId = a.envId.getD 0)) →
      createServiceNinjaResource db a
        = .ok ({ db with resources := db.resources ++ [createdResource db a] }, true)
      ∧ getServiceNinjaResource
          { db with resources := db.resources ++ [createdResource db a] }
          a.name none a.projectId a.envId
        = .ok (some (createdResource db a)))
    ∧ (∀ (f l e : String) (p : Option String), f ≠ "" → l ≠ "" → e ≠ "" →
      emailRegexTest e = true →
      (∀ c ∈ db.contacts, c.email ≠ e) →
      createServiceNinjaContact db (some f) (some l) (some e) p
        = .ok ({ db with contacts := db.contacts ++ [createdContact db f l e p] }, true)
      ∧ getServiceNinjaContact
          { db with contacts := db.contacts ++ [createdContact db f l e p] }
          (some e) none
        = .ok (some (createdContact db f l e p))) := by
  refine ⟨?_, ?_, ?_, ?_⟩
  · intro n d hn hd hfresh
    have htn : truthyS (some n) = true := by simp [truthyS, hn]
    have htd : truthyS (some d) = true := by simp [truthyS, hd]
    have hdup : db.projects.any (fun p => p.name == n) = false :=
      List.any_eq_false.mpr (fun p hp => by simp [hfresh p hp])
    constructor
    · simp [createServiceNinjaProject, createdProject, htn, htd, hdup]
    · have hfind : (db.projects ++ [createdProject db n d]).find?
          (fun p => p.name == n) = some (createdProject db n d) :=
        find?_append_singleton (fun b hb => by simp [hfresh b hb])
          (by simp [createdProject])
      simp [getServiceNinjaProject, htn, hfind]
  · intro n d pid hn hpid hfresh
    have htn : truthyS (some n) = true := by simp [truthyS, hn]
    have htp : truthyN (some pid) = true := by simp [truthyN, hpid]
    constructor
    · simp [createServiceNinjaEnv, createdEnv, htn, htp]
    · have hfind : (db.envs ++ [createdEnv db n d pid]).find?
          (fun e => e.name == n && e.projectId == pid)
          = some (createdEnv db n d pid) := by
        refine find?_append_singleton (fun b hb => ?_) (by simp [createdEnv])
        have := hfresh b hb
        by_cases hbn : b.name = n
        · simp [hbn]
          intro hbp
          exact absurd ⟨hbn, hbp⟩ this
        · simp [hbn]
      simp [getServiceNinjaEnv, htn, htp, hfind]
  · intro a h1 h2 h3 h4 h5 hfresh
    constructor
    · simp [createServiceNinjaResource, createdResource, h1, h2, h3, h4, h5]
    · have hfind : (db.resources ++ [createdResource db a]).find?
          (fun r => r.name == a.name.getD ""
            && (r.projectId == a.projectId.getD 0 && r.envId == a.envId.getD 0))
          = some (createdResource db a) := by
        refine find?_append_singleton (fun b hb => ?_) (by simp [createdResource])
        have := hfresh b hb
        by_cases hbn : b.name = a.name.getD ""
        · simp [hbn]
          intro hbp hbe
          exact absurd ⟨hbn, hbp, hbe⟩ this
        · simp [hbn]
      cases hname : a.name with
      | none => rw [hname] at h1; cases h1
      | some nm =>
          have hnm : truthyS (some nm) = true := hname ▸ h1
          simp [getServiceNinjaResource, hnm, h4, h5, hname] at hfind ⊢
          simp [hfind]
  · intro f l e p hf hl he hfmt hfresh
    have htf : truthyS (some f) = true := by simp [truthyS, hf]
    have htl : truthyS (some l) = true := by simp [truthyS, hl]
    have hte : truthyS (some e) = true := by simp [truthyS, he]
    constructor
    · simp [createServiceNinjaContact, createdContact, htf, htl, hte, hfmt]
    · have hfind : (db.contacts ++ [createdContact db f l e p]).find?
          (fun c => c.email == e) = some (createdContact db f l e p) :=
        find?_append_singleton (fun b hb => by simp [hfresh b hb])
          (by simp [createdContact])
      simp [getServiceNinjaContact, hte, hfind]

theorem create_then_get_roundtrip_witness :
    (createServiceNinjaProject ({} : DB) (some "Acme") (some "desc")
        = .ok ({ projects := [createdProject ({} : DB) "Acme" "desc"] }, true)
      ∧ getServiceNinjaProject
          { projects := [createdProject ({} : DB) "Acme" "desc"] } (some "Acme") none
        = .ok (some (createdProject ({} : DB) "Acme" "desc")))
    ∧ (createServiceNinjaEnv ({} : DB) (some "prod") none (some 2)
        = .ok ({ envs := [createdEnv ({} : DB) "prod" none 2] }, true)
      ∧ getServiceNinjaEnv { envs := [createdEnv ({} : DB) "prod" none 2] }
          (some "prod") none (some 2)
        = .ok (some (createdEnv ({} : DB) "prod" none 2)))
    ∧ (createServiceNinjaResource ({} : DB) rArgsEmptyUrl
        = .ok ({ resources := [createdResource ({} : DB) rArgsEmptyUrl] }, true)
      ∧ getServiceNinjaResource
          { resources := [createdResource ({} : DB) rArgsEmptyUrl] }
          (some "r") none (some 1) (some 1)
        = .ok (some (createdResource ({} : DB) rArgsEmptyUrl)))
    ∧ (createServiceNinjaContact ({} : DB) (some "A") (some "B") (some "a@b.c") (some "")
        = .ok ({ contacts := [createdContact ({} : DB) "A" "B" "a@b.c" (some "")] }, true)
      ∧ getServiceNinjaContact
          { contacts := [createdContact ({} : DB) "A" "B" "a@b.c" (some "")] }
          (some "a@b.c") none
        = .ok (some (createdContact ({} : DB) "A" "B" "a@b.c" (some "")))) := by
  refine ⟨?_, ?_, ?_, ?_⟩
  · exact (create_then_get_roundtrip ({} : DB)).1 "Acme" "desc"
      (by decide) (by decide) (by intro p hp; cases hp)
  · exact (create_then_get_roundtrip ({} : DB)).2.1 "prod" none 2
      (by decide) (by decide) (by intro e he; cases he)
  · exact (create_then_get_roundtrip ({} : DB)).2.2.1 rArgsEmptyUrl
      (by decide) (by decide) (by decide) (by decide) (by decide)
      (by intro r hr; cases hr)
  · exact (create_then_get_roundtrip ({} : DB)).2.2.2 "A" "B" "a@b.c" (some "")
      (by decide) (by decide) (by decide) (by decide) (by intro c hc; cases hc)

lemma map_id_of_eq {α : Type} {l : List α} {f : α → α} (h : ∀ a ∈ l, f a = a) :
    l.map f = l := by
  induction l with
  | nil => rfl
  | cons x xs ih =>
      simp [h x (by simp), ih (fun a ha => h a (List.mem_cons_of_mem _ ha))]

/-- C10 (amended): in every state whose contact emails are pairwise
distinct, an update_contact call whose supplied email is nonempty and
passes the format check is rejected with the already-used error envelope
— and the state left unchanged — when that email belongs to a different
contact, and accepted when it is the contact's own stored email (re-set
to the identical value, so the store is returned unchanged). -/
theorem update_contact_email_uniqueness (db : DB)
    (hdist : db.contacts.Pairwise (fun a b => a.email ≠ b.email))
    (c : ServiceNinjaContact) (hc : c ∈ db.contacts) (hcid : c.id ≠ 0)
    (e : String) (he : e ≠ "") (hfmt : emailRegexTest e = true) :
    (∀ other ∈ db.contacts, other.email = e → other.id ≠ c.id →
      updateServiceNinjaContactTool db { id := some c.id, email := some e }
        = .ok (db, textResult true
            ("Email \"" ++ e ++ "\" is already used by another contact.")))
    ∧ (e = c.email →
      (∀ b ∈ db.contacts, b.id = c.id → b = c) →
      updateServiceNinjaContactTool db { id := some c.id, email := some e }
        = .ok (db, textResult false "Contact updated successfully.")) := by
  have hid : truthyN (some c.id) = true := by simp [truthyN, hcid]
  have hemail : truthyS (some e) = true := by simp [truthyS, he]
  have hsym : Symmetric (fun a b : ServiceNinjaContact => a.email ≠ b.email) :=
    fun x y h heq => h heq.symm
  have hbyid : ∃ c0, db.contacts.find? (fun x => x.id == c.id) = some c0 := by
    cases hfind : db.contacts.find? (fun x => x.id == c.id) with
    | some c0 => exact ⟨c0, rfl⟩
    | none =>
        have := List.find?_eq_none.mp hfind c hc
        simp at this
  obtain ⟨c0, hc0⟩ := hbyid
  constructor
  · intro other hother hoe hoid
    have hfindEmail : db.contacts.find? (fun x => x.email == e) = some other := by
      refine find?_eq_of_unique hother (by simp [hoe]) ?_
      intro b hb hpb
      have hbe : b.email = e := by simpa using hpb
      by_cases hbo : b = other
      · exact hbo
      · exact absurd (hoe ▸ hbe) (hdist.forall hsym hb hother hbo)
    have hoidb : (other.id != c.id) = true := by simp [hoid]
    simp [updateServiceNinjaContactTool, getServiceNinjaContact, truthyS, he,
      hid, hc0, hfmt, hfindEmail, hoidb, jsShowS]
  · intro heq huniq
    have hfindEmail : db.contacts.find? (fun x => x.email == e) = some c := by
      refine find?_eq_of_unique hc (by simp [heq]) ?_
      intro b hb hpb
      have hbe : b.email = e := by simpa using hpb
      by_cases hbc : b = c
      · exact hbc
      · exact absurd (heq ▸ hbe) (hdist.forall hsym hb hc hbc)
    have hrepo : updateServiceNinjaContact db { id := some c.id, email := some e }
        = .ok (db, true) := by
      cases db with
      | mk ps es rs cs rcs =>
          simp only [DB.contacts] at hc huniq
          simp [updateServiceNinjaContact, truthyS, he, hid, hfmt]
          constructor
          · refine map_id_of_eq ?_
            intro a ha
            by_cases hac : a.id = c.id
            · have hax : a = c := huniq a ha hac
              subst hax
              simp [hac, heq]
            · simp [hac]
          · exact ⟨c, hc, rfl⟩
    simp [updateServiceNinjaContactTool, getServiceNinjaContact, truthyS, he,
      hid, hc0, hfmt, hfindEmail, hrepo]

def conA : ServiceNinjaContact :=
  { id := 1, firstName := "A", lastName := "B", email := "a@b.c", phone := none }

def conX : ServiceNinjaContact :=
  { id := 2, firstName := "X", lastName := "Y", email := "x@y.z", phone := none }

def dbTwoContacts : DB := { contacts := [conA, conX] }

theorem update_contact_email_uniqueness_witness :
    updateServiceNinjaContactTool dbTwoContacts { id := some 1, email := some "x@y.z" }
      = .ok (dbTwoContacts, textResult true
          ("Email \"" ++ "x@y.z" ++ "\" is already used by another contact."))
    ∧ updateServiceNinjaContactTool dbTwoContacts { id := some 1, email := some "a@b.c" }
      = .ok (dbTwoContacts, textResult false "Contact updated successfully.") := by
  constructor
  · exact (update_contact_email_uniqueness dbTwoContacts (by simp [dbTwoContacts]; decide)
      conA (by simp [dbTwoContacts]) (by decide) "x@y.z" (by decide) (by decide)).1
      conX (by simp [dbTwoContacts]) rfl (by decide)
  · exact (update_contact_email_uniqueness dbTwoContacts (by simp [dbTwoContacts]; decide)
      conA (by simp [dbTwoContacts]) (by decide) "a@b.c" (by decide) (by decide)).2
      rfl (by decide)

end ServiceNinja
